import Mathlib

/-!
Shallow embedding of the render-profiling subsystem of the limelight SDK
(RenderInterceptor, CommandHandler, RENDER_THRESHOLDS) and proofs of the
spec claims about it.

Conventions of the embedding:
* JS values are references (natural numbers) into an explicit heap
  (`Store`); `===` is reference equality, except that references to
  primitive cells compare by primitive value (distinct heap objects are
  never `===`).
* Machine floats become exact rationals; `Date.now()` instants become
  explicit `now : Nat` arguments; timers become recorded interval values.
* JS `Map` (insertion ordered) becomes an association list updated in
  place (`mapSet`); `WeakMap` keyed on object identity becomes an
  association list keyed on the object reference.
* The mutable `RenderInterceptor` instance becomes `InterceptorState`
  with each method a state transformer.
-/

namespace Limelight

/-! ### JS value heap -/

/-- JS primitive values (numbers modelled as integers). -/
inductive Prim where
  | num : Int → Prim
  | str : String → Prim
  | bool : Bool → Prim
  | null : Prim
  | undef : Prim
deriving DecidableEq, Repr

/-- One heap cell: a primitive, a function object, an array of value
references, or a plain object mapping keys to value references. -/
inductive JSObj where
  | prim : Prim → JSObj
  | func : JSObj
  | arr : List Nat → JSObj
  | obj : List (String × Nat) → JSObj
deriving DecidableEq, Repr

/-- The heap: a value reference is an index into this list. -/
def Store := List JSObj

/-- Dereference; out-of-range references read as `undefined`. -/
def deref (s : Store) (r : Nat) : JSObj :=
  List.getD s r (.prim .undef)

/-- Association-list lookup (first match), modelling `Map.get` /
`Record` indexing. -/
def mapGet {κ α : Type} [DecidableEq κ] : List (κ × α) → κ → Option α
  | [], _ => none
  | (k, v) :: rest, key => if k = key then some v else mapGet rest key

/-- Association-list update (replace first match in place, else append),
modelling `Map.set` on a JS `Map` (which keeps insertion order). -/
def mapSet {κ α : Type} [DecidableEq κ] : List (κ × α) → κ → α → List (κ × α)
  | [], key, v => [(key, v)]
  | (k, w) :: rest, key, v =>
    if k = key then (key, v) :: rest else (k, w) :: mapSet rest key v

/-- The JS `typeof` operator on a heap cell. -/
def typeofObj : JSObj → String
  | .prim (.num _) => "number"
  | .prim (.str _) => "string"
  | .prim (.bool _) => "boolean"
  | .prim .null => "object"
  | .prim .undef => "undefined"
  | .func => "function"
  | .arr _ => "object"
  | .obj _ => "object"

/-- JS `===` on two value references: identical references are equal, and
references to primitive cells compare by primitive value; two distinct
non-primitive heap objects are never `===`. -/
def jsEq (s : Store) (a b : Nat) : Bool :=
  if a = b then true
  else
    match deref s a, deref s b with
    | .prim p, .prim q => decide (p = q)
    | _, _ => false

/-- JS truthiness of a heap cell. -/
def truthy : JSObj → Bool
  | .prim (.num n) => decide (n ≠ 0)
  | .prim (.str t) => decide (t ≠ "")
  | .prim (.bool b) => b
  | .prim .null => false
  | .prim .undef => false
  | .func => true
  | .arr _ => true
  | .obj _ => true

/-- Array indexing by string key, as in `a["0"]`. -/
def arrLookup : List Nat → Nat → String → Option Nat
  | [], _, _ => none
  | x :: rest, i, key => if toString i = key then some x else arrLookup rest (i + 1) key

/-- `Object.keys` on a heap cell (key set of plain objects, index strings
of arrays; primitives and functions carry no own enumerable keys — string
exotic index keys are not modelled, property records are plain objects). -/
def keysOf : JSObj → List String
  | .obj fields => fields.map (fun f => f.1)
  | .arr xs => (List.range xs.length).map toString
  | _ => []

/-- Property read `o[key]`; `none` plays the role of `undefined` for a
missing property. -/
def getProp : JSObj → String → Option Nat
  | .obj fields, key => mapGet fields key
  | .arr xs, key => arrLookup xs 0 key
  | _, _ => none

/-- JS `===` lifted to possibly-missing values (`none` = `undefined`). -/
def jsEqV (s : Store) : Option Nat → Option Nat → Bool
  | none, none => true
  | none, some r => decide (deref s r = .prim .undef)
  | some r, none => decide (deref s r = .prim .undef)
  | some a, some b => jsEq s a b

/-- `typeof` lifted to possibly-missing values. -/
def typeofV (s : Store) : Option Nat → String
  | none => "undefined"
  | some r => typeofObj (deref s r)

/-- JS `x === null` lifted to possibly-missing values. -/
def isNullV (s : Store) : Option Nat → Bool
  | none => false
  | some r => decide (deref s r = .prim .null)

/-- Translation of `RenderInterceptor.isShallowEqual`: one-level-deep
structural equality used to classify a changed prop as reference-only. -/
def isShallowEqual (s : Store) (a b : Option Nat) : Bool :=
  if jsEqV s a b then true
  else if typeofV s a ≠ typeofV s b then false
  else if isNullV s a || isNullV s b then false
  else if typeofV s a = "function" && typeofV s b = "function" then true
  else
    match a, b with
    | some ra, some rb =>
      match deref s ra, deref s rb with
      | .arr xs, .arr ys =>
        decide (xs.length = ys.length) &&
          (xs.zip ys).all (fun pr => jsEq s pr.1 pr.2)
      | oa, ob =>
        if typeofObj oa = "object" && typeofObj ob = "object" then
          let keysA := keysOf oa
          let keysB := keysOf ob
          decide (keysA.length = keysB.length) &&
            keysA.all (fun k => jsEqV s (getProp oa k) (getProp ob k))
        else jsEqV s a b
    | _, _ => jsEqV s a b

/-- One entry of a prop diff (`PropChangeDetail`). -/
structure PropChangeDetail where
  key : String
  referenceOnly : Bool
deriving DecidableEq, Repr

/-- Framework-reserved prop keys skipped by the differ. -/
def skipKeys : List String := ["children", "key", "ref"]

/-- First-occurrence deduplication, modelling iteration order of
`new Set([...keysPrev, ...keysNext])`. -/
def insertionDedup (seen : List String) : List String → List String
  | [] => []
  | k :: rest =>
    if seen.contains k then insertionDedup seen rest
    else k :: insertionDedup (k :: seen) rest

/-- The key loop of `RenderInterceptor.diffProps`: walk the key union,
skip reserved keys and reference-equal values, record a change entry with
its shallow-equality classification, and break once 10 entries exist. -/
def diffPropsLoop (s : Store) (prevO nextO : JSObj) :
    List String → List PropChangeDetail → List PropChangeDetail
  | [], changes => changes
  | k :: rest, changes =>
    if skipKeys.contains k then diffPropsLoop s prevO nextO rest changes
    else
      let prevValue := getProp prevO k
      let nextValue := getProp nextO k
      if jsEqV s prevValue nextValue then diffPropsLoop s prevO nextO rest changes
      else
        let changes2 := changes ++ [⟨k, isShallowEqual s prevValue nextValue⟩]
        if 10 ≤ changes2.length then changes2
        else diffPropsLoop s prevO nextO rest changes2

/-- Translation of `RenderInterceptor.diffProps`. -/
def diffProps (s : Store) (prevProps nextProps : Nat) : List PropChangeDetail :=
  if !truthy (deref s prevProps) || !truthy (deref s nextProps) then []
  else
    let prevO := deref s prevProps
    let nextO := deref s nextProps
    diffPropsLoop s prevO nextO
      (insertionDedup [] (keysOf prevO ++ keysOf nextO)) []

/-! ### Render data model (types/render.ts, constants/index.ts) -/

/-- Enum `RenderCauseType` (six cause categories). -/
inductive RenderCauseType where
  | state_change
  | props_change
  | context_change
  | parent_render
  | force_update
  | unknown
deriving DecidableEq, Repr

/-- Enum `RenderConfidence`. -/
inductive RenderConfidence where
  | high
  | medium
  | low
  | unknown
deriving DecidableEq, Repr

/-- Enum `RenderPhase`. -/
inductive RenderPhase where
  | mount
  | update
  | unmount
deriving DecidableEq, Repr

/-- The `suspiciousReason` strings, modelled structurally: the code stores
  a template string citing either the velocity value or the total render
  count (the decimal formatting of the number is elided). -/
inductive SuspiciousReason where
  | highRenderVelocity (velocity : Rat)
  | highTotalRenders (totalRenders : Nat)
deriving DecidableEq, Repr

/-- A `Record RenderCauseType number` histogram. -/
structure CauseBreakdown where
  state_change : Nat
  props_change : Nat
  context_change : Nat
  parent_render : Nat
  force_update : Nat
  unknown : Nat
deriving DecidableEq, Repr

/-- Helper `createEmptyCauseBreakdown` (all six buckets zero). -/
def createEmptyCauseBreakdown : CauseBreakdown :=
  ⟨0, 0, 0, 0, 0, 0⟩

/-- Increment the bucket of one cause category (`breakdown[cause.type]++`). -/
def CauseBreakdown.incr (b : CauseBreakdown) : RenderCauseType → CauseBreakdown
  | .state_change => { b with state_change := b.state_change + 1 }
  | .props_change => { b with props_change := b.props_change + 1 }
  | .context_change => { b with context_change := b.context_change + 1 }
  | .parent_render => { b with parent_render := b.parent_render + 1 }
  | .force_update => { b with force_update := b.force_update + 1 }
  | .unknown => { b with unknown := b.unknown + 1 }

/-- Sum over the six cause categories of a histogram. -/
def CauseBreakdown.total (b : CauseBreakdown) : Nat :=
  b.state_change + b.props_change + b.context_change +
    b.parent_render + b.force_update + b.unknown

/-- `PropChangeStats`: per-key change counts and reference-only counts. -/
structure PropChangeStats where
  changeCount : List (String × Nat)
  referenceOnlyCount : List (String × Nat)
deriving DecidableEq, Repr

/-- Helper `createEmptyPropChangeStats`. -/
def createEmptyPropChangeStats : PropChangeStats :=
  ⟨[], []⟩

/-- The `RENDER_THRESHOLDS` constant object. -/
structure Thresholds where
  HOT_VELOCITY : Rat
  HIGH_RENDER_COUNT : Nat
  VELOCITY_WINDOW_MS : Nat
  SNAPSHOT_INTERVAL_MS : Nat
  MIN_DELTA_TO_EMIT : Nat
  MAX_PROP_KEYS_TO_TRACK : Nat
  MAX_PROP_CHANGES_PER_SNAPSHOT : Nat
  TOP_PROPS_TO_REPORT : Nat
deriving DecidableEq, Repr

/-- Values from `src/constants/index.ts`. -/
def RENDER_THRESHOLDS : Thresholds :=
  { HOT_VELOCITY := 5
    HIGH_RENDER_COUNT := 50
    VELOCITY_WINDOW_MS := 2000
    SNAPSHOT_INTERVAL_MS := 1000
    MIN_DELTA_TO_EMIT := 1
    MAX_PROP_KEYS_TO_TRACK := 20
    MAX_PROP_CHANGES_PER_SNAPSHOT := 10
    TOP_PROPS_TO_REPORT := 5 }

/-- Cumulative per-component statistics record (`ComponentProfile`). -/
structure ComponentProfile where
  id : String
  componentId : String
  componentName : String
  componentType : String
  mountedAt : Nat
  unmountedAt : Option Nat
  totalRenders : Nat
  totalRenderCost : Rat
  velocityWindowStart : Nat
  velocityWindowCount : Nat
  causeBreakdown : CauseBreakdown
  causeDeltaBreakdown : CauseBreakdown
  lastEmittedRenderCount : Nat
  lastEmittedRenderCost : Rat
  lastEmitTime : Nat
  parentCounts : List (String × Nat)
  primaryParentId : Option String
  depth : Nat
  lastTransactionId : Option String
  isSuspicious : Bool
  suspiciousReason : Option SuspiciousReason
  propChangeStats : PropChangeStats
  propChangeDelta : List PropChangeDetail
deriving DecidableEq, Repr

/-! ### Fiber model (types/render.ts `MinimalFiber`) -/

/-- The fields of a fiber's `alternate` (previous version) that the
interceptor reads: its object identity, and references to its memoized
props and state. -/
structure FiberAlt where
  ref : Nat
  memoizedProps : Nat
  memoizedState : Nat
deriving DecidableEq, Repr

/-- One fiber node as the interceptor reads it. `ref` is the node's
object identity (the `WeakMap` key); `name` abstracts the duck-typed
display-name extraction of `getComponentName`. -/
structure FiberNode where
  ref : Nat
  tag : Nat
  flags : Nat
  name : String
  memoizedProps : Nat
  memoizedState : Nat
  alternate : Option FiberAlt
deriving DecidableEq, Repr

/-- A fiber tree: a fiber with its `child` and `sibling` links
(`nil` models a null link). -/
inductive FTree where
  | nil : FTree
  | node : FiberNode → FTree → FTree → FTree
deriving DecidableEq, Repr

/-- React work-tag constants (`FiberTag`), the subset the code names. -/
def FiberTag.FunctionComponent : Nat := 0
def FiberTag.ClassComponent : Nat := 1
def FiberTag.HostRoot : Nat := 3
def FiberTag.HostComponent : Nat := 5
def FiberTag.ForwardRef : Nat := 11
def FiberTag.MemoComponent : Nat := 14
def FiberTag.SimpleMemoComponent : Nat := 15

/-- React fiber-flag constants (`FiberFlags`). -/
def FiberFlags.NoFlags : Nat := 0
def FiberFlags.PerformedWork : Nat := 1
def FiberFlags.Placement : Nat := 2
def FiberFlags.Update : Nat := 4

/-- Translation of `RenderInterceptor.isUserComponent`. -/
def isUserComponent (fiber : FiberNode) : Bool :=
  fiber.tag = FiberTag.FunctionComponent ||
  fiber.tag = FiberTag.ClassComponent ||
  fiber.tag = FiberTag.ForwardRef ||
  fiber.tag = FiberTag.MemoComponent ||
  fiber.tag = FiberTag.SimpleMemoComponent

/-- Translation of `RenderInterceptor.didFiberRender`
(`(fiber.flags & PerformedWork) !== 0`). -/
def didFiberRender (fiber : FiberNode) : Bool :=
  decide (fiber.flags &&& FiberFlags.PerformedWork ≠ 0)

/-- Translation of `RenderInterceptor.getComponentName` (the duck-typed
name extraction is abstracted into the fiber's `name` field). -/
def getComponentName (fiber : FiberNode) : String :=
  fiber.name

/-- Translation of `RenderInterceptor.getComponentType`. -/
def getComponentType (fiber : FiberNode) : String :=
  if fiber.tag = FiberTag.FunctionComponent then "function"
  else if fiber.tag = FiberTag.ClassComponent then "class"
  else if fiber.tag = FiberTag.ForwardRef then "forwardRef"
  else if fiber.tag = FiberTag.MemoComponent then "memo"
  else if fiber.tag = FiberTag.SimpleMemoComponent then "memo"
  else "unknown"

/-! ### Configuration (types LimelightConfig) and interceptor state -/

/-- The fields of `LimelightConfig` relevant to the render core; the
config carries no render-threshold options (network and console options
are elided). -/
structure LimelightConfig where
  projectKey : String
  platform : Option String := none
  enabled : Option Bool := none
  enableRenderInspector : Option Bool := none
  enableInternalLogging : Option Bool := none
deriving DecidableEq, Repr

/-- The mutable private fields of the `RenderInterceptor` instance.
The `setInterval` timer is recorded as the interval value it was armed
with; the installed/wrapped DevTools hook is recorded as a flag. -/
structure InterceptorState where
  config : Option LimelightConfig := none
  isSetup : Bool := false
  profiles : List (String × ComponentProfile) := []
  fiberToComponentId : List (Nat × String) := []
  componentIdCounter : Nat := 0
  ridCounter : Nat := 0
  snapshotTimerIntervalMs : Option Nat := none
  hookInstalled : Bool := false
  currentCommitComponents : List String := []
  componentsInCurrentCommit : Nat := 0
  pendingUnmounts : List ComponentProfile := []
deriving DecidableEq, Repr

/-- The freshly constructed interceptor (`new RenderInterceptor(...)`). -/
def initialState : InterceptorState := {}

/-- Result record of `inferRenderCause`. -/
structure RenderCause where
  type : RenderCauseType
  confidence : RenderConfidence
  triggerId : Option String := none
  propChanges : Option (List PropChangeDetail) := none
deriving DecidableEq, Repr

/-- The state/context/unknown tail of `inferRenderCause` (the branches
after the parent-rendered-in-commit check fails). -/
def inferRenderCauseTail (s : Store) (fiber : FiberNode) (alternate : FiberAlt) :
    RenderCause :=
  if !jsEq s fiber.memoizedState alternate.memoizedState then
    { type := .state_change, confidence := .medium }
  else if !jsEq s fiber.memoizedProps alternate.memoizedProps then
    { type := .context_change, confidence := .low }
  else
    { type := .unknown, confidence := .unknown }

/-- Translation of `RenderInterceptor.inferRenderCause`. -/
def inferRenderCause (s : Store) (currentCommitComponents : List String)
    (fiber : FiberNode) (parentComponentId : Option String) : RenderCause :=
  match fiber.alternate with
  | none => { type := .unknown, confidence := .high }
  | some alternate =>
    match parentComponentId with
    | some pid =>
      if currentCommitComponents.contains pid then
        let prevProps := alternate.memoizedProps
        let nextProps := fiber.memoizedProps
        let propsChanged := !jsEq s prevProps nextProps
        if propsChanged then
          { type := .props_change, confidence := .medium,
            triggerId := some pid,
            propChanges := some (diffProps s prevProps nextProps) }
        else
          { type := .parent_render, confidence := .medium, triggerId := some pid }
      else inferRenderCauseTail s fiber alternate
    | none => inferRenderCauseTail s fiber alternate

/-! ### Accumulation (`accumulateRender` and helpers) -/

/-- The stats-folding loop of `accumulatePropChanges`: bump per-key
change counts (and reference-only counts), dropping keys that are new
once the distinct-key cap is reached. -/
def accumulatePropStats (stats : PropChangeStats) :
    List PropChangeDetail → PropChangeStats
  | [] => stats
  | change :: rest =>
    if RENDER_THRESHOLDS.MAX_PROP_KEYS_TO_TRACK ≤ stats.changeCount.length ∧
        mapGet stats.changeCount change.key = none then
      accumulatePropStats stats rest
    else
      let cc := mapSet stats.changeCount change.key
        ((mapGet stats.changeCount change.key).getD 0 + 1)
      let stats1 := { stats with changeCount := cc }
      let stats2 :=
        if change.referenceOnly then
          let rc := mapSet stats1.referenceOnlyCount change.key
            ((mapGet stats1.referenceOnlyCount change.key).getD 0 + 1)
          { stats1 with referenceOnlyCount := rc }
        else stats1
      accumulatePropStats stats2 rest

/-- Translation of `RenderInterceptor.accumulatePropChanges`. -/
def accumulatePropChanges (profile : ComponentProfile)
    (changes : List PropChangeDetail) : ComponentProfile :=
  let stats := accumulatePropStats profile.propChangeStats changes
  let delta :=
    if profile.propChangeDelta.length <
        RENDER_THRESHOLDS.MAX_PROP_CHANGES_PER_SNAPSHOT then
      profile.propChangeDelta ++
        changes.take
          (RENDER_THRESHOLDS.MAX_PROP_CHANGES_PER_SNAPSHOT -
            profile.propChangeDelta.length)
    else profile.propChangeDelta
  { profile with propChangeStats := stats, propChangeDelta := delta }

/-- Translation of `RenderInterceptor.calculateVelocity` (renders per
second from the velocity window; stale windows read as zero). -/
def calculateVelocity (now : Nat) (profile : ComponentProfile) : Rat :=
  let windowAge : Int := (now : Int) - (profile.velocityWindowStart : Int)
  if windowAge > (RENDER_THRESHOLDS.VELOCITY_WINDOW_MS : Int) then 0
  else
    let effectiveWindowMs : Int := max windowAge 100
    (profile.velocityWindowCount : Rat) / (effectiveWindowMs : Rat) * 1000

/-- Translation of `RenderInterceptor.updateSuspiciousFlag`. -/
def updateSuspiciousFlag (now : Nat) (profile : ComponentProfile) :
    ComponentProfile :=
  let velocity := calculateVelocity now profile
  if velocity > RENDER_THRESHOLDS.HOT_VELOCITY then
    { profile with isSuspicious := true,
                   suspiciousReason := some (.highRenderVelocity velocity) }
  else if profile.totalRenders > RENDER_THRESHOLDS.HIGH_RENDER_COUNT then
    { profile with isSuspicious := true,
                   suspiciousReason := some (.highTotalRenders profile.totalRenders) }
  else
    { profile with isSuspicious := false, suspiciousReason := none }

/-- Profile creation on first observed render (the fresh object built
inside `accumulateRender`; `generateRenderId` is modelled as a
counter-derived fresh id). -/
def freshProfile (now : Nat) (rid : Nat) (fiber : FiberNode)
    (componentId : String) (depth : Nat) : ComponentProfile :=
  { id := "r_" ++ toString rid
    componentId := componentId
    componentName := getComponentName fiber
    componentType := getComponentType fiber
    mountedAt := now
    unmountedAt := none
    totalRenders := 0
    totalRenderCost := 0
    velocityWindowStart := now
    velocityWindowCount := 0
    causeBreakdown := createEmptyCauseBreakdown
    causeDeltaBreakdown := createEmptyCauseBreakdown
    lastEmittedRenderCount := 0
    lastEmittedRenderCost := 0
    lastEmitTime := now
    parentCounts := []
    primaryParentId := none
    depth := depth
    lastTransactionId := none
    isSuspicious := false
    suspiciousReason := none
    propChangeStats := createEmptyPropChangeStats
    propChangeDelta := [] }

/-- Prop-change folding step of `accumulateRender`
(`if (cause.type === PROPS_CHANGE && cause.propChanges)`). -/
def applyPropChangesStep (cause : RenderCause) (p : ComponentProfile) :
    ComponentProfile :=
  if cause.type = .props_change then
    match cause.propChanges with
    | some changes => accumulatePropChanges p changes
    | none => p
  else p

/-- Transaction-id recording step of `accumulateRender` (the id is only
recorded when truthy, i.e. present and nonempty). -/
def applyTransactionStep (txId : Option String) (p : ComponentProfile) :
    ComponentProfile :=
  match txId with
  | some t => if t = "" then p else { p with lastTransactionId := some t }
  | none => p

/-- Parent-attribution step of `accumulateRender`: bump this parent's
occurrence count and promote it to primary parent when its count now
exceeds the current primary parent's count (or none is set). -/
def applyParentStep (parentComponentId : Option String) (p : ComponentProfile) :
    ComponentProfile :=
  match parentComponentId with
  | none => p
  | some pid =>
    let count := (mapGet p.parentCounts pid).getD 0 + 1
    let pc := mapSet p.parentCounts pid count
    let p1 := { p with parentCounts := pc }
    match p1.primaryParentId with
    | none => { p1 with primaryParentId := some pid }
    | some prim =>
      if count > (mapGet pc prim).getD 0 then
        { p1 with primaryParentId := some pid }
      else p1

/-- Velocity-window step of `accumulateRender`: reset the window when its
start is older than the window duration, else count this render into it. -/
def applyWindowStep (now : Nat) (p : ComponentProfile) : ComponentProfile :=
  let windowStart : Int := (now : Int) - (RENDER_THRESHOLDS.VELOCITY_WINDOW_MS : Int)
  if (p.velocityWindowStart : Int) < windowStart then
    { p with velocityWindowStart := now, velocityWindowCount := 1 }
  else
    { p with velocityWindowCount := p.velocityWindowCount + 1 }

/-- Translation of `RenderInterceptor.accumulateRender`: the core
accumulation of one rendered unit into its profile. The net effect of the
method's sequence of in-place mutations is modelled as a chain of update
steps ending in the map write. -/
def accumulateRender (s : Store) (now : Nat) (txId : Option String)
    (fiber : FiberNode) (componentId : String)
    (parentComponentId : Option String) (depth : Nat)
    (st : InterceptorState) : InterceptorState :=
  let cause := inferRenderCause s st.currentCommitComponents fiber parentComponentId
  let renderCost : Rat :=
    if 0 < st.componentsInCurrentCommit then
      1 / (st.componentsInCurrentCommit : Rat)
    else 1
  let found := mapGet st.profiles componentId
  let p0 :=
    match found with
    | some p => p
    | none => freshProfile now st.ridCounter fiber componentId depth
  let st1 :=
    match found with
    | some _ => st
    | none =>
      { st with ridCounter := st.ridCounter + 1,
                profiles := mapSet st.profiles componentId p0 }
  let p1 := { p0 with totalRenders := p0.totalRenders + 1,
                      totalRenderCost := p0.totalRenderCost + renderCost }
  let p2 := { p1 with causeBreakdown := p1.causeBreakdown.incr cause.type,
                      causeDeltaBreakdown := p1.causeDeltaBreakdown.incr cause.type }
  let p3 := applyPropChangesStep cause p2
  let p4 := applyTransactionStep txId p3
  let p5 := applyParentStep parentComponentId p4
  let p6 := { p5 with depth := depth }
  let p7 := applyWindowStep now p6
  let p8 := updateSuspiciousFlag now p7
  { st1 with profiles := mapSet st1.profiles componentId p8 }

/-! ### Identity allocation and commit processing -/

/-- Translation of `RenderInterceptor.getOrCreateComponentId`: return the
identity associated with the node; else adopt the alternate's identity;
else mint a fresh monotonically increasing one. -/
def getOrCreateComponentId (st : InterceptorState) (fiber : FiberNode) :
    String × InterceptorState :=
  match mapGet st.fiberToComponentId fiber.ref with
  | some id => (id, st)
  | none =>
    match fiber.alternate with
    | some alt =>
      match mapGet st.fiberToComponentId alt.ref with
      | some id =>
        (id, { st with fiberToComponentId :=
                 mapSet st.fiberToComponentId fiber.ref id })
      | none =>
        let id := "c_" ++ toString (st.componentIdCounter + 1)
        (id, { st with componentIdCounter := st.componentIdCounter + 1,
                       fiberToComponentId :=
                         mapSet st.fiberToComponentId fiber.ref id })
    | none =>
      let id := "c_" ++ toString (st.componentIdCounter + 1)
      (id, { st with componentIdCounter := st.componentIdCounter + 1,
                     fiberToComponentId :=
                       mapSet st.fiberToComponentId fiber.ref id })

/-- Set insertion for the commit's rendered-set
(`currentCommitComponents.add`). -/
def setAdd (l : List String) (x : String) : List String :=
  if l.contains x then l else x :: l

/-- Translation of `RenderInterceptor.countRenderedComponents`: first
pass counting trackable units that performed work. -/
def countRenderedComponents : FTree → Nat
  | .nil => 0
  | .node fiber child sibling =>
    (if isUserComponent fiber && didFiberRender fiber then 1 else 0) +
      countRenderedComponents child + countRenderedComponents sibling

/-- Translation of `RenderInterceptor.walkFiberTree`: second pass, in the
same order, resolving identities and accumulating. Note that the source
reassigns its `parentComponentId` local before both recursive calls, so
the sibling subtree also receives the current node as parent context. -/
def walkFiberTree (s : Store) (now : Nat) (txId : Option String) :
    FTree → Option String → Nat → InterceptorState → InterceptorState
  | .nil, _, _, st => st
  | .node fiber child sibling, parentComponentId, depth, st =>
    if isUserComponent fiber && didFiberRender fiber then
      let g := getOrCreateComponentId st fiber
      let componentId := g.1
      let stb := accumulateRender s now txId fiber componentId parentComponentId depth g.2
      let ccc := setAdd stb.currentCommitComponents componentId
      let stc := { stb with currentCommitComponents := ccc }
      let st3 := walkFiberTree s now txId child (some componentId) (depth + 1) stc
      walkFiberTree s now txId sibling (some componentId) depth st3
    else
      let st3 := walkFiberTree s now txId child parentComponentId (depth + 1) st
      walkFiberTree s now txId sibling parentComponentId depth st3

/-- Translation of `RenderInterceptor.handleCommitFiberRoot`: reset the
commit context, count rendered components, then walk and accumulate. -/
def handleCommitFiberRoot (s : Store) (now : Nat) (txId : Option String)
    (root : FTree) (st : InterceptorState) : InterceptorState :=
  let st1 := { st with currentCommitComponents := [],
                       componentsInCurrentCommit := countRenderedComponents root }
  walkFiberTree s now txId root none 0 st1

/-- Translation of `RenderInterceptor.handleCommitFiberUnmount`: move the
unit's profile (if any) from the live map to the pending-unmount list,
stamping the unmount time. -/
def handleCommitFiberUnmount (now : Nat) (fiber : FiberNode)
    (st : InterceptorState) : InterceptorState :=
  if !isUserComponent fiber then st
  else
    match mapGet st.fiberToComponentId fiber.ref with
    | none => st
    | some componentId =>
      match mapGet st.profiles componentId with
      | none => st
      | some profile =>
        { st with
            pendingUnmounts :=
              st.pendingUnmounts ++ [{ profile with unmountedAt := some now }],
            profiles := st.profiles.filter (fun e => !(e.1 = componentId)) }

/-! ### Snapshot emission -/

/-- One entry of the top-changed-props summary. -/
structure TopChangedProp where
  key : String
  count : Nat
  referenceOnlyPercent : Int
deriving DecidableEq, Repr

/-- The `PropChangeSnapshot` sent with a profile snapshot. -/
structure PropChangeSnapshot where
  topChangedProps : List TopChangedProp
deriving DecidableEq, Repr

/-- JS `Math.round` on an exact rational. -/
def jsRound (q : Rat) : Int := Int.floor (q + 1 / 2)

/-- Insertion for a descending-by-count sort. The new element goes
before existing elements of equal count; since `sortDescByCount` folds
from the right (so earlier list elements are inserted later), equal-count
keys keep their original relative order, modelling the stable JS
`sort((a, b) => b[1] - a[1])`. -/
def insertDescByCount (e : String × Nat) : List (String × Nat) → List (String × Nat)
  | [] => [e]
  | x :: rest =>
    if x.2 ≤ e.2 then e :: x :: rest else x :: insertDescByCount e rest

/-- Stable sort by count descending. -/
def sortDescByCount (l : List (String × Nat)) : List (String × Nat) :=
  l.foldr insertDescByCount []

/-- Translation of `RenderInterceptor.buildPropChangeSnapshot`. -/
def buildPropChangeSnapshot (profile : ComponentProfile) :
    Option PropChangeSnapshot :=
  let stats := profile.propChangeStats
  if stats.changeCount.length = 0 then none
  else
    let sorted :=
      (sortDescByCount stats.changeCount).take RENDER_THRESHOLDS.TOP_PROPS_TO_REPORT
    let topChangedProps := sorted.map (fun e =>
      let refOnlyCount := (mapGet stats.referenceOnlyCount e.1).getD 0
      { key := e.1
        count := e.2
        referenceOnlyPercent :=
          if 0 < e.2 then jsRound ((refOnlyCount : Rat) / (e.2 : Rat) * 100) else 0
        : TopChangedProp })
    some { topChangedProps := topChangedProps }

/-- A `ComponentProfileSnapshot` as emitted to the transport. -/
structure ComponentProfileSnapshot where
  id : String
  componentId : String
  componentName : String
  componentType : String
  totalRenders : Nat
  totalRenderCost : Rat
  avgRenderCost : Rat
  rendersDelta : Int
  renderCostDelta : Rat
  renderVelocity : Rat
  causeBreakdown : CauseBreakdown
  causeDeltaBreakdown : CauseBreakdown
  parentComponentId : Option String
  depth : Nat
  lastTransactionId : Option String
  isSuspicious : Bool
  suspiciousReason : Option SuspiciousReason
  renderPhase : RenderPhase
  mountedAt : Nat
  unmountedAt : Option Nat
  propChanges : Option PropChangeSnapshot
deriving DecidableEq, Repr

/-- The per-profile emission condition: include the profile unless its
render delta is below `MIN_DELTA_TO_EMIT` and it is not suspicious. -/
def emitCondition (p : ComponentProfile) : Bool :=
  !(decide ((p.totalRenders : Int) - (p.lastEmittedRenderCount : Int) <
      (RENDER_THRESHOLDS.MIN_DELTA_TO_EMIT : Int)) && !p.isSuspicious)

/-- The snapshot record built for an included live profile. -/
def mkProfileSnapshot (now : Nat) (p : ComponentProfile) :
    ComponentProfileSnapshot :=
  let isMount := p.lastEmittedRenderCount = 0
  { id := p.id
    componentId := p.componentId
    componentName := p.componentName
    componentType := p.componentType
    totalRenders := p.totalRenders
    totalRenderCost := p.totalRenderCost
    avgRenderCost := p.totalRenderCost / (p.totalRenders : Rat)
    rendersDelta := (p.totalRenders : Int) - (p.lastEmittedRenderCount : Int)
    renderCostDelta := p.totalRenderCost - p.lastEmittedRenderCost
    renderVelocity := calculateVelocity now p
    causeBreakdown := p.causeBreakdown
    causeDeltaBreakdown := p.causeDeltaBreakdown
    parentComponentId := p.primaryParentId
    depth := p.depth
    lastTransactionId := p.lastTransactionId
    isSuspicious := p.isSuspicious
    suspiciousReason := p.suspiciousReason
    renderPhase := if isMount then .mount else .update
    mountedAt := p.mountedAt
    unmountedAt := none
    propChanges := buildPropChangeSnapshot p }

/-- The snapshot record built for a pending-unmount profile. -/
def mkUnmountSnapshot (p : ComponentProfile) : ComponentProfileSnapshot :=
  { id := p.id
    componentId := p.componentId
    componentName := p.componentName
    componentType := p.componentType
    totalRenders := p.totalRenders
    totalRenderCost := p.totalRenderCost
    avgRenderCost := p.totalRenderCost / (max p.totalRenders 1 : Rat)
    rendersDelta := 0
    renderCostDelta := 0
    renderVelocity := 0
    causeBreakdown := p.causeBreakdown
    causeDeltaBreakdown := createEmptyCauseBreakdown
    parentComponentId := p.primaryParentId
    depth := p.depth
    lastTransactionId := p.lastTransactionId
    isSuspicious := p.isSuspicious
    suspiciousReason := p.suspiciousReason
    renderPhase := .unmount
    mountedAt := p.mountedAt
    unmountedAt := p.unmountedAt
    propChanges := buildPropChangeSnapshot p }

/-- The delta bookkeeping reset applied to an included profile right
after its snapshot is built. -/
def resetAfterEmit (now : Nat) (p : ComponentProfile) : ComponentProfile :=
  { p with lastEmittedRenderCount := p.totalRenders,
           lastEmittedRenderCost := p.totalRenderCost,
           lastEmitTime := now,
           causeDeltaBreakdown := createEmptyCauseBreakdown,
           propChangeDelta := [] }

/-- The live-profile loop of `emitSnapshot`: build a snapshot and reset
deltas for every included profile, leave the rest untouched. -/
def emitLoop (now : Nat) :
    List (String × ComponentProfile) →
      List ComponentProfileSnapshot × List (String × ComponentProfile)
  | [] => ([], [])
  | (cid, p) :: rest =>
    let r := emitLoop now rest
    if emitCondition p then
      (mkProfileSnapshot now p :: r.1, (cid, resetAfterEmit now p) :: r.2)
    else (r.1, (cid, p) :: r.2)

/-- Translation of `RenderInterceptor.emitSnapshot` (state effect and the
batch of snapshot records; pending unmounts are appended and cleared). -/
def emitSnapshot (now : Nat) (st : InterceptorState) :
    List ComponentProfileSnapshot × InterceptorState :=
  let r := emitLoop now st.profiles
  let unmountSnaps := st.pendingUnmounts.map mkUnmountSnapshot
  (r.1 ++ unmountSnaps,
    { st with profiles := r.2, pendingUnmounts := [] })

/-- Enum `CommandType` from types/commands.ts. -/
inductive CommandType where
  | CLEAR_RENDERS
  | ACK
deriving DecidableEq, Repr

/-- An incoming control command. -/
structure Command where
  type : CommandType
  id : Option String := none
deriving DecidableEq, Repr

/-- Messages handed to the transport sink. -/
inductive OutMessage where
  | renderSnapshot (sessionId : String) (timestamp : Nat)
      (profiles : List ComponentProfileSnapshot)
  | commandAck (commandId : String) (type : CommandType) (success : Bool)
deriving Repr

/-! ### Lifecycle and commands -/

/-- Translation of `RenderInterceptor.installHook` when a global object
is present (wrap the existing hook or create one; recorded as a flag). -/
def installHook (st : InterceptorState) : InterceptorState :=
  { st with hookInstalled := true }

/-- Translation of `RenderInterceptor.setup`: guarded against double
setup; stores the config, installs the hook (failing fast when no global
object exists), and arms the snapshot timer with the constant interval. -/
def setup (config : LimelightConfig) (hasGlobalObject : Bool)
    (st : InterceptorState) : InterceptorState :=
  if st.isSetup then st
  else
    let st1 := { st with config := some config }
    if !hasGlobalObject then st1
    else
      let st2 := installHook st1
      { st2 with snapshotTimerIntervalMs :=
                   some RENDER_THRESHOLDS.SNAPSHOT_INTERVAL_MS,
                 isSetup := true }

/-- Translation of `RenderInterceptor.cleanup`: final emit, stop the
timer, restore hooks, clear profiles, pending unmounts, commit context,
the identity counter and the config (the fiber-to-identity weak map is
not cleared by the source). -/
def cleanup (now : Nat) (st : InterceptorState) : InterceptorState :=
  if !st.isSetup then st
  else
    let st1 := (emitSnapshot now st).2
    { st1 with snapshotTimerIntervalMs := none,
               hookInstalled := false,
               profiles := [],
               pendingUnmounts := [],
               currentCommitComponents := [],
               componentIdCounter := 0,
               config := none,
               isSetup := false }

/-- Modelled from the spec: `RenderInterceptor.resetProfiles` is invoked
by the command handler and mocked by its tests but its definition is not
among the provided sources; per the spec a `CLEAR_RENDERS`-equivalent
command must "synchronously discard all Profiles and pending removals
without tearing down hook installation". -/
def resetProfiles (st : InterceptorState) : InterceptorState :=
  { st with profiles := [], pendingUnmounts := [] }

/-- Translation of `CommandHandler.handle`: dispatch on the command type
(`CLEAR_RENDERS` resets profiles, unknown commands are ignored) and
acknowledge commands that carry an id. -/
def handleCommand (cmd : Command) (st : InterceptorState) :
    InterceptorState × List OutMessage :=
  let st2 :=
    match cmd.type with
    | .CLEAR_RENDERS => resetProfiles st
    | _ => st
  let acks :=
    match cmd.id with
    | some commandId => [OutMessage.commandAck commandId cmd.type true]
    | none => []
  (st2, acks)

/-! ### Operation sequences (for state invariants) -/

/-- One externally triggered operation on the interceptor. -/
inductive Op where
  | setup (config : LimelightConfig) (hasGlobalObject : Bool)
  | commit (s : Store) (now : Nat) (txId : Option String) (root : FTree)
  | unmount (now : Nat) (fiber : FiberNode)
  | emitTick (now : Nat)
  | forceEmit (now : Nat)
  | command (cmd : Command)
  | cleanup (now : Nat)

/-- Apply one operation to the interceptor state. -/
def applyOp (st : InterceptorState) : Op → InterceptorState
  | .setup config hasGlobalObject => Limelight.setup config hasGlobalObject st
  | .commit s now txId root => handleCommitFiberRoot s now txId root st
  | .unmount now fiber => handleCommitFiberUnmount now fiber st
  | .emitTick now => (emitSnapshot now st).2
  | .forceEmit now => (emitSnapshot now st).2
  | .command cmd => (handleCommand cmd st).1
  | .cleanup now => Limelight.cleanup now st

/-- Apply a sequence of operations starting from a state. -/
def applyOps (st : InterceptorState) (ops : List Op) : InterceptorState :=
  ops.foldl applyOp st

/-! ### Derived definitions used by the verification -/

/-- Total accumulated render cost over all live profiles. -/
def sumCost (m : List (String × ComponentProfile)) : Rat :=
  (m.map (fun e => e.2.totalRenderCost)).sum

/-- The per-unit cost used by `accumulateRender` when the commit counted
`n` rendering units. -/
def costTerm (n : Nat) : Rat :=
  if 0 < n then 1 / (n : Rat) else 1

/-- Invariant of every live profile: the cause histogram sums to the
total render count, and at least one render has been accumulated. -/
def ProfilesOK (st : InterceptorState) : Prop :=
  ∀ e ∈ st.profiles,
    (e.2.causeBreakdown.total = e.2.totalRenders ∧ 1 ≤ e.2.totalRenders)

/-- Run `getOrCreateComponentId` over a sequence of fiber nodes,
threading the interceptor state, collecting the returned identities. -/
def identityRun (st : InterceptorState) : List FiberNode → List String × InterceptorState
  | [] => ([], st)
  | f :: rest =>
    let g := getOrCreateComponentId st f
    let r := identityRun g.2 rest
    (g.1 :: r.1, r.2)

/-- The fibers form a version chain: each node's previous-version
back-reference is the preceding node. -/
def chainLinked : FiberNode → List FiberNode → Prop
  | _, [] => True
  | prev, f :: rest =>
    (∃ alt, f.alternate = some alt ∧ alt.ref = prev.ref) ∧ chainLinked f rest

/-- The threshold values the interceptor consults for a given
configuration. The source stores the configuration (`this.config =
config`, with a TODO comment to use it for thresholds) but every
threshold read goes directly to the `RENDER_THRESHOLDS` constants, so
the result does not depend on the configuration. -/
def effectiveThresholds (_config : LimelightConfig) : Thresholds :=
  RENDER_THRESHOLDS

/-- The configuration options the spec describes as recognized at setup. -/
structure SpecRenderOptions where
  snapshotIntervalMs : Option Nat := none
  velocityWindowMs : Option Nat := none
  hotVelocityThreshold : Option Rat := none
  highRenderCountThreshold : Option Nat := none
  minDeltaToEmit : Option Nat := none
  maxTrackedPropKeys : Option Nat := none
  maxPropChangesPerSnapshot : Option Nat := none
  topPropsToReport : Option Nat := none
deriving DecidableEq, Repr

/-- Threshold resolution following the words of the spec (for comparison
with the source behavior): each recognized option overrides the
corresponding default, and an option left unspecified keeps its default
(1000ms, 2000ms, 5/sec, 50, 1, 20, 10, 5 respectively). -/
def specEffectiveThresholds (o : SpecRenderOptions) : Thresholds :=
  { HOT_VELOCITY := o.hotVelocityThreshold.getD 5
    HIGH_RENDER_COUNT := o.highRenderCountThreshold.getD 50
    VELOCITY_WINDOW_MS := o.velocityWindowMs.getD 2000
    SNAPSHOT_INTERVAL_MS := o.snapshotIntervalMs.getD 1000
    MIN_DELTA_TO_EMIT := o.minDeltaToEmit.getD 1
    MAX_PROP_KEYS_TO_TRACK := o.maxTrackedPropKeys.getD 20
    MAX_PROP_CHANGES_PER_SNAPSHOT := o.maxPropChangesPerSnapshot.getD 10
    TOP_PROPS_TO_REPORT := o.topPropsToReport.getD 5 }

/-- One-level-deep structural equality following the words of the spec
(for comparison with the source's `isShallowEqual`): primitives equal;
arrays of equal length with reference-equal elements; plain objects with
equal key SETS and reference-equal values; any two function values always
equal; nothing else structurally equal. -/
def specShallowStructEq (s : Store) (a b : Option Nat) : Bool :=
  match a, b with
  | some ra, some rb =>
    match deref s ra, deref s rb with
    | .prim p, .prim q => decide (p = q)
    | .func, .func => true
    | .arr xs, .arr ys =>
      decide (xs.length = ys.length) &&
        (xs.zip ys).all (fun pr => jsEq s pr.1 pr.2)
    | .obj fa, .obj fb =>
      let ka := keysOf (.obj fa)
      let kb := keysOf (.obj fb)
      ka.all (fun k => kb.contains k) && kb.all (fun k => ka.contains k) &&
        ka.all (fun k => jsEqV s (getProp (.obj fa) k) (getProp (.obj fb) k))
    | _, _ => false
  | _, _ => false

/-! ### Concrete fixtures (used to evaluate the theorems on real inputs) -/

/-- A small heap: two distinct one-key property records whose `x` values
are different primitives, plus the primitives themselves. -/
def exStore : Store :=
  [JSObj.obj [("x", 2)], JSObj.obj [("x", 3)],
   JSObj.prim (.num 1), JSObj.prim (.num 0)]

/-- A rendered function component (fresh mount, no alternate). -/
def exFiberA : FiberNode :=
  { ref := 0, tag := 0, flags := 1, name := "A",
    memoizedProps := 0, memoizedState := 2, alternate := none }

/-- A rendered class component (fresh mount, no alternate). -/
def exFiberB : FiberNode :=
  { ref := 1, tag := 1, flags := 1, name := "B",
    memoizedProps := 1, memoizedState := 3, alternate := none }

/-- A commit tree with two rendered trackable units (B is a child of A). -/
def exTree2 : FTree :=
  .node exFiberA (.node exFiberB .nil .nil) .nil

/-- One commit of the two-unit tree. -/
def exOps : List Op := [Op.commit exStore 100 none exTree2]

/-- The first live profile after that commit. -/
def exProfile : ComponentProfile :=
  ((applyOps initialState exOps).profiles.headD
    ("", freshProfile 0 0 exFiberA "" 0)).2

/-- A minimal configuration. -/
def exConfig : LimelightConfig := { projectKey := "k" }

/-- A state with an installed hook, an armed timer and live profiles. -/
def exStateC3 : InterceptorState :=
  applyOps initialState
    [Op.setup exConfig true, Op.commit exStore 100 none exTree2]

/-- A `CLEAR_RENDERS` command without an id. -/
def exClearCmd : Command := { type := .CLEAR_RENDERS }

/-- Version 1 of a logical unit (mount; no alternate). -/
def exFiberV1 : FiberNode :=
  { ref := 10, tag := 0, flags := 1, name := "V",
    memoizedProps := 0, memoizedState := 2, alternate := none }

/-- Version 2 of the unit; its alternate is version 1. -/
def exFiberV2 : FiberNode :=
  { ref := 11, tag := 0, flags := 1, name := "V",
    memoizedProps := 1, memoizedState := 2,
    alternate := some { ref := 10, memoizedProps := 0, memoizedState := 2 } }

/-- Version 3 of the unit; its alternate is version 2. -/
def exFiberV3 : FiberNode :=
  { ref := 12, tag := 0, flags := 1, name := "V",
    memoizedProps := 0, memoizedState := 2,
    alternate := some { ref := 11, memoizedProps := 1, memoizedState := 2 } }

/-- An updated fiber whose previous version had different props. -/
def exFiberC6 : FiberNode :=
  { ref := 20, tag := 0, flags := 1, name := "C",
    memoizedProps := 1, memoizedState := 2,
    alternate := some { ref := 21, memoizedProps := 0, memoizedState := 2 } }

/-- A heap exhibiting the key-set corner of the shallow-equality check:
the prop `p` is replaced by a distinct plain object whose key set differs
(`x` with value `undefined` versus `y` with value 5) but whose key count
matches and whose sole first-record key reads `undefined` on both sides.
Refs: 0 = prev props, 1 = next props, 2 = old value of p, 3 = new value
of p, 4 = the undefined primitive, 5 = the number 5. -/
def cxStore : Store :=
  [JSObj.obj [("p", 2)], JSObj.obj [("p", 3)],
   JSObj.obj [("x", 4)], JSObj.obj [("y", 5)],
   JSObj.prim .undef, JSObj.prim (.num 5)]

/-! ### Association-list lemmas -/

theorem mapGet_mapSet_self {κ α : Type} [DecidableEq κ]
    (m : List (κ × α)) (k : κ) (v : α) :
    mapGet (mapSet m k v) k = some v := by
  induction m with
  | nil => simp [mapGet, mapSet]
  | cons e rest ih =>
    rcases e with ⟨k1, v1⟩
    by_cases h : k1 = k
    · simp [mapGet, mapSet, h]
    · simp [mapGet, mapSet, h, ih]

theorem mapGet_mapSet_ne {κ α : Type} [DecidableEq κ]
    (m : List (κ × α)) (k k2 : κ) (v : α) (h : k ≠ k2) :
    mapGet (mapSet m k v) k2 = mapGet m k2 := by
  induction m with
  | nil => simp [mapGet, mapSet, h]
  | cons e rest ih =>
    rcases e with ⟨k1, v1⟩
    by_cases h1 : k1 = k
    · simp [mapGet, mapSet, h1, h]
    · simp only [mapSet, if_neg h1]
      by_cases h2 : k1 = k2
      · simp [mapGet, h2]
      · simp [mapGet, h2, ih]

theorem mapSet_mapSet {κ α : Type} [DecidableEq κ]
    (m : List (κ × α)) (k : κ) (v w : α) :
    mapSet (mapSet m k v) k w = mapSet m k w := by
  induction m with
  | nil => simp [mapSet]
  | cons e rest ih =>
    rcases e with ⟨k1, v1⟩
    by_cases h : k1 = k
    · simp [mapSet, h]
    · simp [mapSet, h, ih]

theorem mem_mapSet {κ α : Type} [DecidableEq κ]
    {m : List (κ × α)} {k : κ} {v : α} {e : κ × α}
    (he : e ∈ mapSet m k v) : e = (k, v) ∨ e ∈ m := by
  induction m with
  | nil => simpa [mapSet] using he
  | cons x rest ih =>
    rcases x with ⟨k1, v1⟩
    by_cases h : k1 = k
    · simp only [mapSet, if_pos h] at he
      rcases List.mem_cons.mp he with h1 | h1
      · exact Or.inl h1
      · exact Or.inr (List.mem_cons_of_mem _ h1)
    · simp only [mapSet, if_neg h] at he
      rcases List.mem_cons.mp he with h1 | h1
      · exact Or.inr (h1 ▸ List.mem_cons_self _ _)
      · rcases ih h1 with h2 | h2
        · exact Or.inl h2
        · exact Or.inr (List.mem_cons_of_mem _ h2)

theorem mapGet_mem {κ α : Type} [DecidableEq κ]
    {m : List (κ × α)} {k : κ} {v : α} (h : mapGet m k = some v) :
    (k, v) ∈ m := by
  induction m with
  | nil => simp [mapGet] at h
  | cons e rest ih =>
    rcases e with ⟨k1, v1⟩
    by_cases h1 : k1 = k
    · simp only [mapGet, if_pos h1] at h
      subst h1
      rcases Option.some_inj.mp h with rfl
      exact List.mem_cons_self _ _
    · simp only [mapGet, if_neg h1] at h
      exact List.mem_cons_of_mem _ (ih h)

theorem sumCost_mapSet_none (m : List (String × ComponentProfile))
    (k : String) (p : ComponentProfile) (h : mapGet m k = none) :
    sumCost (mapSet m k p) = sumCost m + p.totalRenderCost := by
  induction m with
  | nil => simp [sumCost, mapSet]
  | cons e rest ih =>
    rcases e with ⟨k1, v1⟩
    by_cases h1 : k1 = k
    · simp [mapGet, h1] at h
    · simp only [mapGet, if_neg h1] at h
      simp only [mapSet, if_neg h1]
      simp only [sumCost, List.map_cons, List.sum_cons] at *
      rw [ih h]
      ring

theorem sumCost_mapSet_some (m : List (String × ComponentProfile))
    (k : String) (p q : ComponentProfile) (h : mapGet m k = some q) :
    sumCost (mapSet m k p) =
      sumCost m + p.totalRenderCost - q.totalRenderCost := by
  induction m with
  | nil => simp [mapGet] at h
  | cons e rest ih =>
    rcases e with ⟨k1, v1⟩
    by_cases h1 : k1 = k
    · simp only [mapGet, if_pos h1] at h
      rcases Option.some_inj.mp h with rfl
      simp only [mapSet, if_pos h1]
      simp only [sumCost, List.map_cons, List.sum_cons]
      ring
    · simp only [mapGet, if_neg h1] at h
      simp only [mapSet, if_neg h1]
      simp only [sumCost, List.map_cons, List.sum_cons] at *
      rw [ih h]
      ring

/-! ### Preservation lemmas for the accumulation steps -/

theorem accumulatePropChanges_stats_only (p : ComponentProfile)
    (chs : List PropChangeDetail) :
    (accumulatePropChanges p chs).totalRenderCost = p.totalRenderCost ∧
    (accumulatePropChanges p chs).totalRenders = p.totalRenders ∧
    (accumulatePropChanges p chs).causeBreakdown = p.causeBreakdown := by
  refine ⟨rfl, rfl, rfl⟩

theorem applyPropChangesStep_preserves (c : RenderCause) (p : ComponentProfile) :
    (applyPropChangesStep c p).totalRenderCost = p.totalRenderCost ∧
    (applyPropChangesStep c p).totalRenders = p.totalRenders ∧
    (applyPropChangesStep c p).causeBreakdown = p.causeBreakdown := by
  unfold applyPropChangesStep
  split
  · rcases c.propChanges with _ | chs
    · simp
    · simpa using accumulatePropChanges_stats_only p chs
  · simp

theorem applyTransactionStep_preserves (t : Option String) (p : ComponentProfile) :
    (applyTransactionStep t p).totalRenderCost = p.totalRenderCost ∧
    (applyTransactionStep t p).totalRenders = p.totalRenders ∧
    (applyTransactionStep t p).causeBreakdown = p.causeBreakdown := by
  unfold applyTransactionStep
  rcases t with _ | t
  · simp
  · by_cases h : t = "" <;> simp [h]

theorem applyParentStep_preserves (pid : Option String) (p : ComponentProfile) :
    (applyParentStep pid p).totalRenderCost = p.totalRenderCost ∧
    (applyParentStep pid p).totalRenders = p.totalRenders ∧
    (applyParentStep pid p).causeBreakdown = p.causeBreakdown := by
  rcases pid with _ | pid
  · simp [applyParentStep]
  · rcases hP : p.primaryParentId with _ | prim
    · simp [applyParentStep, hP]
    · simp only [applyParentStep, hP]
      split <;> simp

theorem applyWindowStep_preserves (now : Nat) (p : ComponentProfile) :
    (applyWindowStep now p).totalRenderCost = p.totalRenderCost ∧
    (applyWindowStep now p).totalRenders = p.totalRenders ∧
    (applyWindowStep now p).causeBreakdown = p.causeBreakdown := by
  by_cases h : (p.velocityWindowStart : Int) <
      (now : Int) - (RENDER_THRESHOLDS.VELOCITY_WINDOW_MS : Int)
  · simp [applyWindowStep, h]
  · simp [applyWindowStep, h]

theorem updateSuspiciousFlag_preserves (now : Nat) (p : ComponentProfile) :
    (updateSuspiciousFlag now p).totalRenderCost = p.totalRenderCost ∧
    (updateSuspiciousFlag now p).totalRenders = p.totalRenders ∧
    (updateSuspiciousFlag now p).causeBreakdown = p.causeBreakdown := by
  by_cases h1 : calculateVelocity now p > RENDER_THRESHOLDS.HOT_VELOCITY
  · simp [updateSuspiciousFlag, h1]
  · by_cases h2 : p.totalRenders > RENDER_THRESHOLDS.HIGH_RENDER_COUNT
    · simp [updateSuspiciousFlag, h1, h2]
    · simp [updateSuspiciousFlag, h1, h2]

theorem CauseBreakdown.total_incr (b : CauseBreakdown) (c : RenderCauseType) :
    (b.incr c).total = b.total + 1 := by
  cases c <;> simp [CauseBreakdown.incr, CauseBreakdown.total] <;> omega

theorem cost_applyPropChangesStep (c : RenderCause) (p : ComponentProfile) :
    (applyPropChangesStep c p).totalRenderCost = p.totalRenderCost :=
  (applyPropChangesStep_preserves c p).1

theorem renders_applyPropChangesStep (c : RenderCause) (p : ComponentProfile) :
    (applyPropChangesStep c p).totalRenders = p.totalRenders :=
  (applyPropChangesStep_preserves c p).2.1

theorem breakdown_applyPropChangesStep (c : RenderCause) (p : ComponentProfile) :
    (applyPropChangesStep c p).causeBreakdown = p.causeBreakdown :=
  (applyPropChangesStep_preserves c p).2.2

theorem cost_applyTransactionStep (t : Option String) (p : ComponentProfile) :
    (applyTransactionStep t p).totalRenderCost = p.totalRenderCost :=
  (applyTransactionStep_preserves t p).1

theorem renders_applyTransactionStep (t : Option String) (p : ComponentProfile) :
    (applyTransactionStep t p).totalRenders = p.totalRenders :=
  (applyTransactionStep_preserves t p).2.1

theorem breakdown_applyTransactionStep (t : Option String) (p : ComponentProfile) :
    (applyTransactionStep t p).causeBreakdown = p.causeBreakdown :=
  (applyTransactionStep_preserves t p).2.2

theorem cost_applyParentStep (pid : Option String) (p : ComponentProfile) :
    (applyParentStep pid p).totalRenderCost = p.totalRenderCost :=
  (applyParentStep_preserves pid p).1

theorem renders_applyParentStep (pid : Option String) (p : ComponentProfile) :
    (applyParentStep pid p).totalRenders = p.totalRenders :=
  (applyParentStep_preserves pid p).2.1

theorem breakdown_applyParentStep (pid : Option String) (p : ComponentProfile) :
    (applyParentStep pid p).causeBreakdown = p.causeBreakdown :=
  (applyParentStep_preserves pid p).2.2

theorem cost_applyWindowStep (now : Nat) (p : ComponentProfile) :
    (applyWindowStep now p).totalRenderCost = p.totalRenderCost :=
  (applyWindowStep_preserves now p).1

theorem renders_applyWindowStep (now : Nat) (p : ComponentProfile) :
    (applyWindowStep now p).totalRenders = p.totalRenders :=
  (applyWindowStep_preserves now p).2.1

theorem breakdown_applyWindowStep (now : Nat) (p : ComponentProfile) :
    (applyWindowStep now p).causeBreakdown = p.causeBreakdown :=
  (applyWindowStep_preserves now p).2.2

theorem cost_updateSuspiciousFlag (now : Nat) (p : ComponentProfile) :
    (updateSuspiciousFlag now p).totalRenderCost = p.totalRenderCost :=
  (updateSuspiciousFlag_preserves now p).1

theorem renders_updateSuspiciousFlag (now : Nat) (p : ComponentProfile) :
    (updateSuspiciousFlag now p).totalRenders = p.totalRenders :=
  (updateSuspiciousFlag_preserves now p).2.1

theorem breakdown_updateSuspiciousFlag (now : Nat) (p : ComponentProfile) :
    (updateSuspiciousFlag now p).causeBreakdown = p.causeBreakdown :=
  (updateSuspiciousFlag_preserves now p).2.2

/-! ### State effect of `accumulateRender` -/

theorem accumulateRender_commitFields (s : Store) (now : Nat) (tx : Option String)
    (f : FiberNode) (cid : String) (pid : Option String) (d : Nat)
    (st : InterceptorState) :
    (accumulateRender s now tx f cid pid d st).componentsInCurrentCommit =
        st.componentsInCurrentCommit ∧
    (accumulateRender s now tx f cid pid d st).currentCommitComponents =
        st.currentCommitComponents ∧
    (accumulateRender s now tx f cid pid d st).pendingUnmounts =
        st.pendingUnmounts ∧
    (accumulateRender s now tx f cid pid d st).fiberToComponentId =
        st.fiberToComponentId := by
  rcases h : mapGet st.profiles cid with _ | p <;>
    simp [accumulateRender, h]

theorem accumulateRender_sumCost (s : Store) (now : Nat) (tx : Option String)
    (f : FiberNode) (cid : String) (pid : Option String) (d : Nat)
    (st : InterceptorState) :
    sumCost (accumulateRender s now tx f cid pid d st).profiles =
      sumCost st.profiles + costTerm st.componentsInCurrentCommit := by
  rcases h : mapGet st.profiles cid with _ | p
  · simp only [accumulateRender, h]
    rw [mapSet_mapSet]
    rw [sumCost_mapSet_none _ _ _ h]
    rw [cost_updateSuspiciousFlag, cost_applyWindowStep]
    simp only [cost_applyParentStep, cost_applyTransactionStep,
      cost_applyPropChangesStep]
    simp [freshProfile, costTerm]
  · simp only [accumulateRender, h]
    rw [sumCost_mapSet_some _ _ _ _ h]
    rw [cost_updateSuspiciousFlag, cost_applyWindowStep]
    simp only [cost_applyParentStep, cost_applyTransactionStep,
      cost_applyPropChangesStep]
    simp only [costTerm]
    ring

theorem accumulateRender_ok (s : Store) (now : Nat) (tx : Option String)
    (f : FiberNode) (cid : String) (pid : Option String) (d : Nat)
    (st : InterceptorState)
    (h0 : ∀ e ∈ st.profiles,
      (e.2.causeBreakdown.total = e.2.totalRenders ∧ 1 ≤ e.2.totalRenders)) :
    ∀ e ∈ (accumulateRender s now tx f cid pid d st).profiles,
      (e.2.causeBreakdown.total = e.2.totalRenders ∧ 1 ≤ e.2.totalRenders) := by
  intro e he
  rcases h : mapGet st.profiles cid with _ | p
  · simp only [accumulateRender, h] at he
    rw [mapSet_mapSet] at he
    rcases mem_mapSet he with rfl | hmem
    · constructor
      · simp only [breakdown_updateSuspiciousFlag, breakdown_applyWindowStep,
          breakdown_applyParentStep, breakdown_applyTransactionStep,
          breakdown_applyPropChangesStep, renders_updateSuspiciousFlag,
          renders_applyWindowStep, renders_applyParentStep,
          renders_applyTransactionStep, renders_applyPropChangesStep]
        simp [CauseBreakdown.total_incr, freshProfile,
          show createEmptyCauseBreakdown.total = 0 from rfl]
      · simp only [renders_updateSuspiciousFlag, renders_applyWindowStep,
          renders_applyParentStep, renders_applyTransactionStep,
          renders_applyPropChangesStep]
        simp [freshProfile]
    · exact h0 e hmem
  · simp only [accumulateRender, h] at he
    rcases mem_mapSet he with rfl | hmem
    · have hp := h0 (cid, p) (mapGet_mem h)
      constructor
      · simp only [breakdown_updateSuspiciousFlag, breakdown_applyWindowStep,
          breakdown_applyParentStep, breakdown_applyTransactionStep,
          breakdown_applyPropChangesStep, renders_updateSuspiciousFlag,
          renders_applyWindowStep, renders_applyParentStep,
          renders_applyTransactionStep, renders_applyPropChangesStep]
        simp [CauseBreakdown.total_incr, hp.1]
      · simp only [renders_updateSuspiciousFlag, renders_applyWindowStep,
          renders_applyParentStep, renders_applyTransactionStep,
          renders_applyPropChangesStep]
        simp
    · exact h0 e hmem

/-! ### State effect of the tree walk -/

theorem getOrCreate_state (st : InterceptorState) (f : FiberNode) :
    (getOrCreateComponentId st f).2.profiles = st.profiles ∧
    (getOrCreateComponentId st f).2.componentsInCurrentCommit =
        st.componentsInCurrentCommit ∧
    (getOrCreateComponentId st f).2.currentCommitComponents =
        st.currentCommitComponents ∧
    (getOrCreateComponentId st f).2.pendingUnmounts = st.pendingUnmounts := by
  unfold getOrCreateComponentId
  rcases h1 : mapGet st.fiberToComponentId f.ref with _ | id
  · rcases h2 : f.alternate with _ | alt
    · simp [h1, h2]
    · rcases h3 : mapGet st.fiberToComponentId alt.ref with _ | id2 <;>
        simp [h1, h2, h3]
  · simp [h1]

theorem walkFiberTree_spec (s : Store) (now : Nat) (tx : Option String) :
    ∀ (t : FTree) (pid : Option String) (d : Nat) (st : InterceptorState),
      (walkFiberTree s now tx t pid d st).componentsInCurrentCommit =
          st.componentsInCurrentCommit ∧
      (walkFiberTree s now tx t pid d st).pendingUnmounts = st.pendingUnmounts ∧
      sumCost (walkFiberTree s now tx t pid d st).profiles =
        sumCost st.profiles +
          (countRenderedComponents t : Rat) *
            costTerm st.componentsInCurrentCommit := by
  intro t
  induction t with
  | nil =>
    intro pid d st
    simp [walkFiberTree, countRenderedComponents]
  | node fiber child sibling ihc ihs =>
    intro pid d st
    by_cases hr : (isUserComponent fiber && didFiberRender fiber) = true
    · simp only [walkFiberTree, hr, if_true, countRenderedComponents]
      have hg := getOrCreate_state st fiber
      have ha := accumulateRender_commitFields s now tx fiber
        (getOrCreateComponentId st fiber).1 pid d (getOrCreateComponentId st fiber).2
      have has := accumulateRender_sumCost s now tx fiber
        (getOrCreateComponentId st fiber).1 pid d (getOrCreateComponentId st fiber).2
      refine ⟨?_, ?_, ?_⟩
      · rw [(ihs _ _ _).1, (ihc _ _ _).1]
        simp [ha.1, hg.2.1]
      · rw [(ihs _ _ _).2.1, (ihc _ _ _).2.1]
        simp [ha.2.2.1, hg.2.2.2]
      · rw [(ihs _ _ _).2.2, (ihc _ _ _).2.2, (ihc _ _ _).1]
        simp [has, hg.1, hg.2.1, ha.1, hr]
        ring
    · rw [Bool.not_eq_true] at hr
      simp only [walkFiberTree, hr, countRenderedComponents, Bool.false_eq_true,
        if_false]
      refine ⟨?_, ?_, ?_⟩
      · rw [(ihs _ _ _).1, (ihc _ _ _).1]
      · rw [(ihs _ _ _).2.1, (ihc _ _ _).2.1]
      · rw [(ihs _ _ _).2.2, (ihc _ _ _).2.2, (ihc _ _ _).1]
        push_cast
        ring

theorem walkFiberTree_ok (s : Store) (now : Nat) (tx : Option String) :
    ∀ (t : FTree) (pid : Option String) (d : Nat) (st : InterceptorState),
      (∀ e ∈ st.profiles,
        (e.2.causeBreakdown.total = e.2.totalRenders ∧ 1 ≤ e.2.totalRenders)) →
      ∀ e ∈ (walkFiberTree s now tx t pid d st).profiles,
        (e.2.causeBreakdown.total = e.2.totalRenders ∧ 1 ≤ e.2.totalRenders) := by
  intro t
  induction t with
  | nil =>
    intro pid d st h0
    simpa [walkFiberTree] using h0
  | node fiber child sibling ihc ihs =>
    intro pid d st h0
    by_cases hr : (isUserComponent fiber && didFiberRender fiber) = true
    · simp only [walkFiberTree, hr, if_true]
      refine ihs _ _ _ (ihc _ _ _ ?_)
      intro e he
      have he2 : e ∈ (accumulateRender s now tx fiber
          (getOrCreateComponentId st fiber).1 pid d
          (getOrCreateComponentId st fiber).2).profiles := he
      refine accumulateRender_ok s now tx fiber
        (getOrCreateComponentId st fiber).1 pid d
        (getOrCreateComponentId st fiber).2 ?_ e he2
      rw [(getOrCreate_state st fiber).1]
      exact h0
    · rw [Bool.not_eq_true] at hr
      simp only [walkFiberTree, hr, Bool.false_eq_true, if_false]
      exact ihs _ _ _ (ihc _ _ _ h0)

theorem handleCommitFiberRoot_ok (s : Store) (now : Nat) (tx : Option String)
    (root : FTree) (st : InterceptorState)
    (h0 : ∀ e ∈ st.profiles,
      (e.2.causeBreakdown.total = e.2.totalRenders ∧ 1 ≤ e.2.totalRenders)) :
    ∀ e ∈ (handleCommitFiberRoot s now tx root st).profiles,
      (e.2.causeBreakdown.total = e.2.totalRenders ∧ 1 ≤ e.2.totalRenders) := by
  unfold handleCommitFiberRoot
  refine walkFiberTree_ok s now tx root none 0 _ ?_
  simpa using h0

/-! ### State effect of emission -/

theorem emitLoop_mem_of_cond (now : Nat) :
    ∀ (m : List (String × ComponentProfile)) (cid : String)
      (p : ComponentProfile), (cid, p) ∈ m → emitCondition p = true →
      ((cid, resetAfterEmit now p) ∈ (emitLoop now m).2 ∧
        mkProfileSnapshot now p ∈ (emitLoop now m).1) := by
  intro m
  induction m with
  | nil => intro cid p h; simp at h
  | cons e rest ih =>
    intro cid p hmem hcond
    rcases e with ⟨cid1, p1⟩
    rcases List.mem_cons.mp hmem with h1 | h1
    · rcases Prod.mk.injEq .. ▸ h1 with ⟨rfl, rfl⟩
      simp [emitLoop, hcond]
    · by_cases hc1 : emitCondition p1 = true
      · simp only [emitLoop, hc1, if_true]
        exact ⟨List.mem_cons_of_mem _ (ih cid p h1 hcond).1,
          List.mem_cons_of_mem _ (ih cid p h1 hcond).2⟩
      · rw [Bool.not_eq_true] at hc1
        simp only [emitLoop, hc1, Bool.false_eq_true, if_false]
        exact ⟨List.mem_cons_of_mem _ (ih cid p h1 hcond).1,
          (ih cid p h1 hcond).2⟩

theorem emitLoop_mem_of_not_cond (now : Nat) :
    ∀ (m : List (String × ComponentProfile)) (cid : String)
      (p : ComponentProfile), (cid, p) ∈ m → emitCondition p = false →
      (cid, p) ∈ (emitLoop now m).2 := by
  intro m
  induction m with
  | nil => intro cid p h; simp at h
  | cons e rest ih =>
    intro cid p hmem hcond
    rcases e with ⟨cid1, p1⟩
    rcases List.mem_cons.mp hmem with h1 | h1
    · rcases Prod.mk.injEq .. ▸ h1 with ⟨rfl, rfl⟩
      simp [emitLoop, hcond]
    · by_cases hc1 : emitCondition p1 = true
      · simp only [emitLoop, hc1, if_true]
        exact List.mem_cons_of_mem _ (ih cid p h1 hcond)
      · rw [Bool.not_eq_true] at hc1
        simp only [emitLoop, hc1, Bool.false_eq_true, if_false]
        exact List.mem_cons_of_mem _ (ih cid p h1 hcond)

theorem emitLoop_snaps_src (now : Nat) :
    ∀ (m : List (String × ComponentProfile)) (snap : ComponentProfileSnapshot),
      snap ∈ (emitLoop now m).1 →
      ∃ cid p, (cid, p) ∈ m ∧ emitCondition p = true ∧
        snap = mkProfileSnapshot now p := by
  intro m
  induction m with
  | nil => intro snap h; simp [emitLoop] at h
  | cons e rest ih =>
    intro snap hmem
    rcases e with ⟨cid1, p1⟩
    by_cases hc1 : emitCondition p1 = true
    · simp only [emitLoop, hc1, if_true] at hmem
      rcases List.mem_cons.mp hmem with h1 | h1
      · exact ⟨cid1, p1, List.mem_cons_self _ _, hc1, h1⟩
      · rcases ih snap h1 with ⟨cid, p, hm, hc, hs⟩
        exact ⟨cid, p, List.mem_cons_of_mem _ hm, hc, hs⟩
    · rw [Bool.not_eq_true] at hc1
      simp only [emitLoop, hc1, Bool.false_eq_true, if_false] at hmem
      rcases ih snap hmem with ⟨cid, p, hm, hc, hs⟩
      exact ⟨cid, p, List.mem_cons_of_mem _ hm, hc, hs⟩

theorem emitLoop_profiles_src (now : Nat) :
    ∀ (m : List (String × ComponentProfile)) (e : String × ComponentProfile),
      e ∈ (emitLoop now m).2 →
      ∃ p, (e.1, p) ∈ m ∧
        (e.2 = p ∨ e.2 = resetAfterEmit now p) := by
  intro m
  induction m with
  | nil => intro e h; simp [emitLoop] at h
  | cons x rest ih =>
    intro e hmem
    rcases x with ⟨cid1, p1⟩
    by_cases hc1 : emitCondition p1 = true
    · simp only [emitLoop, hc1, if_true] at hmem
      rcases List.mem_cons.mp hmem with h1 | h1
      · subst h1
        exact ⟨p1, List.mem_cons_self _ _, Or.inr rfl⟩
      · rcases ih e h1 with ⟨p, hm, hor⟩
        exact ⟨p, List.mem_cons_of_mem _ hm, hor⟩
    · rw [Bool.not_eq_true] at hc1
      simp only [emitLoop, hc1, Bool.false_eq_true, if_false] at hmem
      rcases List.mem_cons.mp hmem with h1 | h1
      · subst h1
        exact ⟨p1, List.mem_cons_self _ _, Or.inl rfl⟩
      · rcases ih e h1 with ⟨p, hm, hor⟩
        exact ⟨p, List.mem_cons_of_mem _ hm, hor⟩

theorem emitSnapshot_ok (now : Nat) (st : InterceptorState)
    (h0 : ∀ e ∈ st.profiles,
      (e.2.causeBreakdown.total = e.2.totalRenders ∧ 1 ≤ e.2.totalRenders)) :
    ∀ e ∈ (emitSnapshot now st).2.profiles,
      (e.2.causeBreakdown.total = e.2.totalRenders ∧ 1 ≤ e.2.totalRenders) := by
  intro e he
  simp only [emitSnapshot] at he
  rcases emitLoop_profiles_src now st.profiles e he with ⟨p, hm, hor⟩
  have hp := h0 (e.1, p) hm
  rcases hor with h1 | h1
  · rw [show e = (e.1, e.2) from rfl, h1]
    exact hp
  · rw [show e = (e.1, e.2) from rfl, h1]
    exact hp

/-! ### The profile invariant across whole operations -/

theorem handleCommitFiberUnmount_ok (now : Nat) (fiber : FiberNode)
    (st : InterceptorState)
    (h0 : ∀ e ∈ st.profiles,
      (e.2.causeBreakdown.total = e.2.totalRenders ∧ 1 ≤ e.2.totalRenders)) :
    ∀ e ∈ (handleCommitFiberUnmount now fiber st).profiles,
      (e.2.causeBreakdown.total = e.2.totalRenders ∧ 1 ≤ e.2.totalRenders) := by
  intro e he
  unfold handleCommitFiberUnmount at he
  split at he
  · exact h0 e he
  · split at he
    · exact h0 e he
    · split at he
      · exact h0 e he
      · exact h0 e (List.mem_of_mem_filter he)

theorem applyOp_ok (st : InterceptorState) (op : Op) (h0 : ProfilesOK st) :
    ProfilesOK (applyOp st op) := by
  cases op with
  | setup config hasGlobalObject =>
    intro e he
    by_cases h1 : st.isSetup = true
    · simp only [applyOp, Limelight.setup, h1, if_true] at he
      exact h0 e he
    · rw [Bool.not_eq_true] at h1
      by_cases h2 : hasGlobalObject = true
      · simp [applyOp, Limelight.setup, installHook, h1, h2] at he
        exact h0 e he
      · rw [Bool.not_eq_true] at h2
        simp [applyOp, Limelight.setup, installHook, h1, h2] at he
        exact h0 e he
  | commit s now txId root =>
    exact handleCommitFiberRoot_ok s now txId root st h0
  | unmount now fiber =>
    exact handleCommitFiberUnmount_ok now fiber st h0
  | emitTick now =>
    exact emitSnapshot_ok now st h0
  | forceEmit now =>
    exact emitSnapshot_ok now st h0
  | command cmd =>
    intro e he
    rcases hct : cmd.type with _ | _
    · simp only [applyOp, handleCommand, hct, resetProfiles] at he
      simp at he
    · simp only [applyOp, handleCommand, hct] at he
      exact h0 e he
  | cleanup now =>
    intro e he
    by_cases h1 : st.isSetup = true
    · simp only [applyOp, Limelight.cleanup, h1, Bool.not_true,
        Bool.false_eq_true, if_false] at he
      simp at he
    · rw [Bool.not_eq_true] at h1
      simp only [applyOp, Limelight.cleanup, h1, Bool.not_false, if_true] at he
      exact h0 e he

theorem applyOps_ok (ops : List Op) :
    ∀ st : InterceptorState, ProfilesOK st → ProfilesOK (applyOps st ops) := by
  induction ops with
  | nil => intro st h0; simpa [applyOps] using h0
  | cons op rest ih =>
    intro st h0
    have h1 : applyOps st (op :: rest) = applyOps (applyOp st op) rest := rfl
    rw [h1]
    exact ih _ (applyOp_ok st op h0)

theorem initialState_ok : ProfilesOK initialState := by
  intro e he
  simp [initialState] at he

/-! ### Claim theorems -/

/-- C1: cost conservation. For every commit whose first counting pass
finds N >= 1 trackable units with the performed-work flag set, processing
the commit accumulates each unit with renderCost 1/N (N being the count
stored in the commit context by the counting pass), so the total
accumulated render cost over all live profiles grows by exactly 1 (the
sum of the N distributed costs; exact in rationals, hence within
floating-point tolerance). -/
theorem C1_cost_conservation (s : Store) (now : Nat) (txId : Option String)
    (root : FTree) (st : InterceptorState)
    (hN : 1 ≤ countRenderedComponents root) :
    sumCost (handleCommitFiberRoot s now txId root st).profiles =
      sumCost st.profiles + 1 ∧
    (handleCommitFiberRoot s now txId root st).componentsInCurrentCommit =
      countRenderedComponents root := by
  have hw := walkFiberTree_spec s now txId root none 0
    { st with currentCommitComponents := [],
              componentsInCurrentCommit := countRenderedComponents root }
  have hN0 : 0 < countRenderedComponents root := hN
  have hne : ((countRenderedComponents root : Nat) : Rat) ≠ 0 :=
    Nat.cast_ne_zero.mpr (Nat.pos_iff_ne_zero.mp hN0)
  constructor
  · show sumCost (walkFiberTree s now txId root none 0 _).profiles = _
    rw [hw.2.2]
    simp only [costTerm, hN0, if_pos]
    rw [mul_one_div, div_self hne]
  · show (walkFiberTree s now txId root none 0 _).componentsInCurrentCommit = _
    rw [hw.1]

/-- C1 witness: a commit of the concrete two-unit tree has N = 2 and
raises the total accumulated cost from 0 to exactly 1. -/
theorem C1_cost_conservation_witness :
    1 ≤ countRenderedComponents exTree2 ∧
    sumCost (handleCommitFiberRoot exStore 100 none exTree2
        initialState).profiles = sumCost initialState.profiles + 1 :=
  ⟨by decide,
    (C1_cost_conservation exStore 100 none exTree2 initialState (by decide)).1⟩

/-- C2: histogram sum invariant. Starting from a fresh interceptor, after
any sequence of operations (setup, commits, unmounts, emission ticks,
commands, cleanup), every profile in the live map has its six-bucket
cause histogram summing to exactly its total render count. -/
theorem C2_histogram_sum (ops : List Op) :
    ∀ e ∈ (applyOps initialState ops).profiles,
      e.2.causeBreakdown.total = e.2.totalRenders :=
  fun e he => ((applyOps_ok ops initialState initialState_ok) e he).1

/-- C2 witness: the profile created by the concrete commit has histogram
total equal to its render count. -/
theorem C2_histogram_sum_witness :
    (("c_1", exProfile) ∈ (applyOps initialState exOps).profiles) ∧
    exProfile.causeBreakdown.total = exProfile.totalRenders :=
  ⟨by with_unfolding_all decide,
    C2_histogram_sum exOps ("c_1", exProfile) (by with_unfolding_all decide)⟩

/-- C10: every live profile has totalRenders >= 1 at every point between
operations (profiles are created only inside accumulateRender, which
increments totalRenders before the state is observable again), and hence
every live-profile snapshot built during emission divides
totalRenderCost by a nonzero totalRenders when computing avgRenderCost. -/
theorem C10_total_renders_positive (ops : List Op) :
    (∀ e ∈ (applyOps initialState ops).profiles, 1 ≤ e.2.totalRenders) ∧
    (∀ (now : Nat) (snap : ComponentProfileSnapshot),
      snap ∈ (emitSnapshot now (applyOps initialState ops)).1 →
      snap.renderPhase ≠ RenderPhase.unmount → 1 ≤ snap.totalRenders) := by
  constructor
  · exact fun e he => ((applyOps_ok ops initialState initialState_ok) e he).2
  · intro now snap hmem hphase
    simp only [emitSnapshot] at hmem
    rcases List.mem_append.mp hmem with h1 | h1
    · rcases emitLoop_snaps_src now _ snap h1 with ⟨cid, p, hm, _, hs⟩
      have hp := ((applyOps_ok ops initialState initialState_ok) (cid, p) hm).2
      rw [hs]
      exact hp
    · rcases List.mem_map.mp h1 with ⟨p, _, hs⟩
      exact absurd (hs ▸ rfl : snap.renderPhase = RenderPhase.unmount) hphase

/-- C10 witness: the concrete profile has a positive render count. -/
theorem C10_total_renders_positive_witness :
    (("c_1", exProfile) ∈ (applyOps initialState exOps).profiles) ∧
    1 ≤ exProfile.totalRenders :=
  ⟨by with_unfolding_all decide,
    (C10_total_renders_positive exOps).1 ("c_1", exProfile)
      (by with_unfolding_all decide)⟩

/-- C3: a handled `CLEAR_RENDERS` command synchronously discards all live
profiles and all pending-removal profiles while leaving the installed
hook, the armed snapshot timer, the setup flag, the stored config, the
fiber-identity association and the identity counter untouched, so
accumulation restarts without re-running setup. (`resetProfiles` itself
is modelled from the spec; its definition is absent from the sources.) -/
theorem C3_clear_renders (st : InterceptorState) (cmd : Command)
    (h : cmd.type = CommandType.CLEAR_RENDERS) :
    (handleCommand cmd st).1.profiles = [] ∧
    (handleCommand cmd st).1.pendingUnmounts = [] ∧
    (handleCommand cmd st).1.hookInstalled = st.hookInstalled ∧
    (handleCommand cmd st).1.snapshotTimerIntervalMs =
      st.snapshotTimerIntervalMs ∧
    (handleCommand cmd st).1.isSetup = st.isSetup ∧
    (handleCommand cmd st).1.config = st.config ∧
    (handleCommand cmd st).1.fiberToComponentId = st.fiberToComponentId ∧
    (handleCommand cmd st).1.componentIdCounter = st.componentIdCounter := by
  simp [handleCommand, h, resetProfiles]

/-- C3 witness: clearing a concrete state with an installed hook, an
armed timer and live profiles empties the profiles and pending unmounts
and leaves hook, timer and setup state as they were. -/
theorem C3_clear_renders_witness :
    exClearCmd.type = CommandType.CLEAR_RENDERS ∧
    ((handleCommand exClearCmd exStateC3).1.profiles = [] ∧
     (handleCommand exClearCmd exStateC3).1.pendingUnmounts = [] ∧
     (handleCommand exClearCmd exStateC3).1.hookInstalled =
       exStateC3.hookInstalled ∧
     (handleCommand exClearCmd exStateC3).1.snapshotTimerIntervalMs =
       exStateC3.snapshotTimerIntervalMs ∧
     (handleCommand exClearCmd exStateC3).1.isSetup = exStateC3.isSetup ∧
     (handleCommand exClearCmd exStateC3).1.config = exStateC3.config ∧
     (handleCommand exClearCmd exStateC3).1.fiberToComponentId =
       exStateC3.fiberToComponentId ∧
     (handleCommand exClearCmd exStateC3).1.componentIdCounter =
       exStateC3.componentIdCounter) :=
  ⟨rfl, C3_clear_renders exStateC3 exClearCmd rfl⟩

/-- C4 counterexample: the configuration does not override the emission
cadence. After setup with any configuration the armed timer interval is
the constant 1000 ms, while the spec-resolved thresholds for an explicit
`snapshotIntervalMs = 500` option demand 500 ms; the source stores the
config but never consults it for thresholds (`LimelightConfig` does not
even carry threshold options). -/
theorem C4_config_not_consulted :
    (setup exConfig true initialState).snapshotTimerIntervalMs =
      some 1000 ∧
    (specEffectiveThresholds
      { snapshotIntervalMs := some 500 }).SNAPSHOT_INTERVAL_MS = 500 ∧
    ¬(500 : Nat) = 1000 := by
  refine ⟨by decide, rfl, by decide⟩

/-- C4 amended: the eight parameters are fixed at their defaults (1000ms
cadence, 2000ms velocity window, 5/sec hot threshold, 50 high-count
threshold, 1 min delta, 20 tracked prop keys, 10 buffered prop changes,
5 reported top props) from `RENDER_THRESHOLDS` regardless of the
configuration passed at setup; an option left unspecified keeps its
default holds vacuously (no threshold option is recognized), and the
spec-resolved thresholds agree with the behavior only when every option
is left unspecified. -/
theorem C4_defaults_always_apply :
    (∀ config : LimelightConfig, effectiveThresholds config = RENDER_THRESHOLDS) ∧
    RENDER_THRESHOLDS =
      { HOT_VELOCITY := 5, HIGH_RENDER_COUNT := 50, VELOCITY_WINDOW_MS := 2000,
        SNAPSHOT_INTERVAL_MS := 1000, MIN_DELTA_TO_EMIT := 1,
        MAX_PROP_KEYS_TO_TRACK := 20, MAX_PROP_CHANGES_PER_SNAPSHOT := 10,
        TOP_PROPS_TO_REPORT := 5 } ∧
    (∀ (config : LimelightConfig) (st : InterceptorState),
      st.isSetup = false →
      (setup config true st).snapshotTimerIntervalMs = some 1000) ∧
    specEffectiveThresholds {} = RENDER_THRESHOLDS := by
  refine ⟨fun _ => rfl, rfl, ?_, rfl⟩
  intro config st h
  simp [setup, installHook, h, RENDER_THRESHOLDS]

/-- C4 amended witness: setting up a fresh interceptor with the concrete
configuration arms the timer with the default 1000 ms interval. -/
theorem C4_defaults_always_apply_witness :
    initialState.isSetup = false ∧
    (setup exConfig true initialState).snapshotTimerIntervalMs = some 1000 :=
  ⟨rfl, (C4_defaults_always_apply).2.2.1 exConfig initialState rfl⟩

/-! ### Identity-allocation lemmas -/

theorem getOrCreate_assoc_self (st : InterceptorState) (f : FiberNode) :
    mapGet (getOrCreateComponentId st f).2.fiberToComponentId f.ref =
      some (getOrCreateComponentId st f).1 := by
  unfold getOrCreateComponentId
  rcases h1 : mapGet st.fiberToComponentId f.ref with _ | id
  · rcases h2 : f.alternate with _ | alt
    · simp [h1, h2, mapGet_mapSet_self]
    · rcases h3 : mapGet st.fiberToComponentId alt.ref with _ | id2 <;>
        simp [h1, h2, h3, mapGet_mapSet_self]
  · simp [h1]

theorem getOrCreate_assoc_other (st : InterceptorState) (f : FiberNode)
    (r : Nat) (h : r ≠ f.ref) :
    mapGet (getOrCreateComponentId st f).2.fiberToComponentId r =
      mapGet st.fiberToComponentId r := by
  unfold getOrCreateComponentId
  rcases h1 : mapGet st.fiberToComponentId f.ref with _ | id
  · rcases h2 : f.alternate with _ | alt
    · simp [h1, h2, mapGet_mapSet_ne _ _ _ _ (Ne.symm h)]
    · rcases h3 : mapGet st.fiberToComponentId alt.ref with _ | id2 <;>
        simp [h1, h2, h3, mapGet_mapSet_ne _ _ _ _ (Ne.symm h)]
  · simp [h1]

theorem identityRun_chain :
    ∀ (fs : List FiberNode) (prev : FiberNode) (id : String)
      (st : InterceptorState),
      mapGet st.fiberToComponentId prev.ref = some id →
      chainLinked prev fs →
      (∀ g ∈ fs, mapGet st.fiberToComponentId g.ref = none) →
      (∀ g ∈ fs, g.ref ≠ prev.ref) →
      (fs.map (fun f => f.ref)).Nodup →
      (identityRun st fs).1 = List.replicate fs.length id := by
  intro fs
  induction fs with
  | nil => intro prev id st _ _ _ _ _; simp [identityRun]
  | cons f rest ih =>
    intro prev id st hprev hchain hnone hne hnodup
    rcases hchain with ⟨⟨alt, halt, haltref⟩, hchainrest⟩
    have hfnone := hnone f (List.mem_cons_self _ _)
    have hadopt : (getOrCreateComponentId st f).1 = id ∧
        (getOrCreateComponentId st f).2.fiberToComponentId =
          mapSet st.fiberToComponentId f.ref id := by
      unfold getOrCreateComponentId
      simp [hfnone, halt, haltref, hprev]
    have hselfid : mapGet (getOrCreateComponentId st f).2.fiberToComponentId
        f.ref = some id := by
      rw [hadopt.2]
      exact mapGet_mapSet_self _ _ _
    have hfref_notin : f.ref ∉ rest.map (fun x => x.ref) := by
      simp only [List.map_cons, List.nodup_cons] at hnodup
      exact hnodup.1
    have hrest := ih f id (getOrCreateComponentId st f).2 hselfid hchainrest
      (by
        intro g hg
        rw [hadopt.2]
        rw [mapGet_mapSet_ne]
        · exact hnone g (List.mem_cons_of_mem _ hg)
        · intro hcontra
          exact hfref_notin (hcontra ▸ List.mem_map_of_mem (fun x => x.ref) hg))
      (by
        intro g hg hcontra
        exact hfref_notin (hcontra ▸ List.mem_map_of_mem (fun x => x.ref) hg))
      (by
        simp only [List.map_cons, List.nodup_cons] at hnodup
        exact hnodup.2)
    show (getOrCreateComponentId st f).1 ::
        (identityRun (getOrCreateComponentId st f).2 rest).1 = _
    rw [hadopt.1, hrest]
    simp [List.replicate_succ]

/-- C5: identity stability. The identity lookup returns the identity
already associated with the node if one exists; otherwise, if the node's
previous-version back-reference has an associated identity, that identity
is adopted for the new node and returned; otherwise a fresh monotonically
increasing identity is minted. Consequently, along any chain of distinct,
not-yet-associated node versions linked by the previous-version
back-reference, sequential lookups all return the identity of the chain's
first node. -/
theorem C5_identity_stability :
    (∀ (st : InterceptorState) (f : FiberNode) (id : String),
      mapGet st.fiberToComponentId f.ref = some id →
      getOrCreateComponentId st f = (id, st)) ∧
    (∀ (st : InterceptorState) (f : FiberNode) (alt : FiberAlt) (id : String),
      mapGet st.fiberToComponentId f.ref = none →
      f.alternate = some alt →
      mapGet st.fiberToComponentId alt.ref = some id →
      (getOrCreateComponentId st f).1 = id ∧
      mapGet (getOrCreateComponentId st f).2.fiberToComponentId f.ref =
        some id) ∧
    (∀ (st : InterceptorState) (f : FiberNode),
      mapGet st.fiberToComponentId f.ref = none →
      (∀ alt, f.alternate = some alt →
        mapGet st.fiberToComponentId alt.ref = none) →
      (getOrCreateComponentId st f).1 =
        "c_" ++ toString (st.componentIdCounter + 1) ∧
      (getOrCreateComponentId st f).2.componentIdCounter =
        st.componentIdCounter + 1) ∧
    (∀ (f0 : FiberNode) (fs : List FiberNode) (st : InterceptorState),
      chainLinked f0 fs →
      (f0.ref :: fs.map (fun f => f.ref)).Nodup →
      (∀ g ∈ fs, mapGet st.fiberToComponentId g.ref = none) →
      ∀ id ∈ (identityRun st (f0 :: fs)).1,
        id = (getOrCreateComponentId st f0).1) := by
  refine ⟨?_, ?_, ?_, ?_⟩
  · intro st f id h
    unfold getOrCreateComponentId
    rw [h]
  · intro st f alt id h1 h2 h3
    constructor
    · unfold getOrCreateComponentId
      simp [h1, h2, h3]
    · unfold getOrCreateComponentId
      simp [h1, h2, h3, mapGet_mapSet_self]
  · intro st f h1 h2
    unfold getOrCreateComponentId
    rcases ha : f.alternate with _ | alt
    · simp [h1, ha]
    · simp [h1, ha, h2 alt ha]
  · intro f0 fs st hchain hnodup hnone
    have hself := getOrCreate_assoc_self st f0
    have hnone2 : ∀ g ∈ fs,
        mapGet (getOrCreateComponentId st f0).2.fiberToComponentId g.ref = none := by
      intro g hg
      rw [getOrCreate_assoc_other st f0 g.ref]
      · exact hnone g hg
      · intro hcontra
        simp only [List.nodup_cons] at hnodup
        exact hnodup.1 (hcontra ▸ List.mem_map_of_mem (fun x => x.ref) hg)
    have hne2 : ∀ g ∈ fs, g.ref ≠ f0.ref := by
      intro g hg hcontra
      simp only [List.nodup_cons] at hnodup
      exact hnodup.1 (hcontra ▸ List.mem_map_of_mem (fun x => x.ref) hg)
    have hrest := identityRun_chain fs f0 (getOrCreateComponentId st f0).1
      (getOrCreateComponentId st f0).2 hself hchain hnone2 hne2
      (by simp only [List.nodup_cons] at hnodup; exact hnodup.2)
    intro id hid
    have hrun : (identityRun st (f0 :: fs)).1 =
        (getOrCreateComponentId st f0).1 ::
          (identityRun (getOrCreateComponentId st f0).2 fs).1 := rfl
    rw [hrun, hrest] at hid
    rcases List.mem_cons.mp hid with h | h
    · exact h
    · exact List.eq_of_mem_replicate h

/-- C5 witness: running the lookup over the concrete three-version chain
returns the same identity for the third version as for the first. -/
theorem C5_identity_stability_witness :
    (identityRun initialState [exFiberV1, exFiberV2, exFiberV3]).1.getD 2 "" =
      (getOrCreateComponentId initialState exFiberV1).1 :=
  C5_identity_stability.2.2.2 exFiberV1 [exFiberV2, exFiberV3] initialState
    ⟨⟨⟨10, 0, 2⟩, rfl, rfl⟩, ⟨⟨11, 1, 2⟩, rfl, rfl⟩, trivial⟩
    (by decide) (by decide) _ (by decide)

/-- C6: cause inference is a priority cascade. (1) No previous version
yields UNKNOWN with HIGH confidence; (2) else, a supplied parent identity
that is in the commit rendered-set yields PROPS_CHANGE (MEDIUM, trigger =
parent, with a property diff) when the property-set reference differs,
and PARENT_RENDER (MEDIUM, trigger = parent) when it does not; (3) else a
reference-differing internal state yields STATE_CHANGE (MEDIUM); (4) else
a reference-differing property set yields CONTEXT_CHANGE (LOW); (5) else
UNKNOWN with UNKNOWN confidence. Earlier branches take precedence. -/
theorem C6_cause_cascade (s : Store) (cs : List String) (f : FiberNode)
    (pid : Option String) :
    (f.alternate = none →
      inferRenderCause s cs f pid =
        { type := .unknown, confidence := .high }) ∧
    (∀ alt, f.alternate = some alt →
      ∀ p, pid = some p → cs.contains p = true →
      (jsEq s alt.memoizedProps f.memoizedProps = false →
        inferRenderCause s cs f pid =
          { type := .props_change, confidence := .medium,
            triggerId := some p,
            propChanges :=
              some (diffProps s alt.memoizedProps f.memoizedProps) }) ∧
      (jsEq s alt.memoizedProps f.memoizedProps = true →
        inferRenderCause s cs f pid =
          { type := .parent_render, confidence := .medium,
            triggerId := some p })) ∧
    (∀ alt, f.alternate = some alt →
      (∀ p, pid = some p → cs.contains p = false) →
      (jsEq s f.memoizedState alt.memoizedState = false →
        inferRenderCause s cs f pid =
          { type := .state_change, confidence := .medium }) ∧
      (jsEq s f.memoizedState alt.memoizedState = true →
        jsEq s f.memoizedProps alt.memoizedProps = false →
        inferRenderCause s cs f pid =
          { type := .context_change, confidence := .low }) ∧
      (jsEq s f.memoizedState alt.memoizedState = true →
        jsEq s f.memoizedProps alt.memoizedProps = true →
        inferRenderCause s cs f pid =
          { type := .unknown, confidence := .unknown })) := by
  refine ⟨?_, ?_, ?_⟩
  · intro h
    simp [inferRenderCause, h]
  · intro alt halt p hp hin
    subst hp
    constructor
    · intro hprops
      simp only [inferRenderCause, halt]
      rw [if_pos hin, hprops]
      simp
    · intro hprops
      simp only [inferRenderCause, halt]
      rw [if_pos hin, hprops]
      simp
  · intro alt halt hout
    have htail : inferRenderCause s cs f pid = inferRenderCauseTail s f alt := by
      rcases pid with _ | p
      · simp [inferRenderCause, halt]
      · simp only [inferRenderCause, halt]
        rw [if_neg]
        rw [hout p rfl]
        simp
    refine ⟨?_, ?_, ?_⟩
    · intro hstate
      rw [htail]
      simp [inferRenderCauseTail, hstate]
    · intro hstate hprops
      rw [htail]
      simp [inferRenderCauseTail, hstate, hprops]
    · intro hstate hprops
      rw [htail]
      simp [inferRenderCauseTail, hstate, hprops]

/-- C6 witness: an updated concrete fiber whose parent also rendered in
the commit and whose property-set reference changed resolves to
PROPS_CHANGE with MEDIUM confidence, the parent as trigger, and the
concrete property diff. -/
theorem C6_cause_cascade_witness :
    inferRenderCause exStore ["c_9"] exFiberC6 (some "c_9") =
      { type := .props_change, confidence := .medium,
        triggerId := some "c_9",
        propChanges := some (diffProps exStore 0 1) } :=
  ((C6_cause_cascade exStore ["c_9"] exFiberC6 (some "c_9")).2.1
    ⟨21, 0, 2⟩ rfl "c_9" rfl (by decide)).1 (by decide)

/-- C8: suspicious-pattern detection. Velocity reads 0 when the window is
older than the 2000 ms window duration and otherwise equals
windowCount / max(windowAge, 100 ms) x 1000; recomputing the flag marks
the profile suspicious with a velocity-citing reason when velocity
strictly exceeds 5/sec, else with a total-count-citing reason when
totalRenders strictly exceeds 50, and otherwise clears flag and reason. -/
theorem C8_suspicious_detection (now : Nat) (p : ComponentProfile) :
    ((now : Int) - (p.velocityWindowStart : Int) > 2000 →
      calculateVelocity now p = 0) ∧
    ((now : Int) - (p.velocityWindowStart : Int) ≤ 2000 →
      calculateVelocity now p =
        (p.velocityWindowCount : Rat) /
          ((max ((now : Int) - (p.velocityWindowStart : Int)) 100 : Int) : Rat)
            * 1000) ∧
    (calculateVelocity now p > 5 →
      updateSuspiciousFlag now p =
        { p with isSuspicious := true,
                 suspiciousReason :=
                   some (.highRenderVelocity (calculateVelocity now p)) }) ∧
    (calculateVelocity now p ≤ 5 → p.totalRenders > 50 →
      updateSuspiciousFlag now p =
        { p with isSuspicious := true,
                 suspiciousReason :=
                   some (.highTotalRenders p.totalRenders) }) ∧
    (calculateVelocity now p ≤ 5 → p.totalRenders ≤ 50 →
      updateSuspiciousFlag now p =
        { p with isSuspicious := false, suspiciousReason := none }) ∧
    (∀ (s : Store) (tx : Option String) (f : FiberNode) (cid : String)
      (pid : Option String) (d : Nat) (st : InterceptorState),
      ∃ q, mapGet (accumulateRender s now tx f cid pid d st).profiles cid =
        some (updateSuspiciousFlag now q)) := by
  refine ⟨?_, ?_, ?_, ?_, ?_, ?_⟩
  · intro h
    simp only [calculateVelocity, RENDER_THRESHOLDS]
    rw [if_pos]
    push_cast
    exact h
  · intro h
    simp only [calculateVelocity, RENDER_THRESHOLDS]
    rw [if_neg]
    push_cast
    omega
  · intro h
    simp only [updateSuspiciousFlag]
    rw [if_pos]
    exact h
  · intro h1 h2
    simp only [updateSuspiciousFlag]
    rw [if_neg]
    · rw [if_pos]
      exact h2
    · exact not_lt.mpr h1
  · intro h1 h2
    simp only [updateSuspiciousFlag]
    rw [if_neg]
    · rw [if_neg]
      exact not_lt.mpr h2
    · exact not_lt.mpr h1
  · intro s tx f cid pid d st
    rcases h : mapGet st.profiles cid with _ | p0
    · simp only [accumulateRender, h]
      rw [mapSet_mapSet]
      exact ⟨_, mapGet_mapSet_self _ _ _⟩
    · simp only [accumulateRender, h]
      exact ⟨_, mapGet_mapSet_self _ _ _⟩

/-- C8 witness: the concrete freshly mounted profile has velocity
1/100 x 1000 = 10 > 5 at the commit instant, so it is flagged with the
velocity-citing reason. -/
theorem C8_suspicious_detection_witness :
    updateSuspiciousFlag 100 exProfile =
      { exProfile with
        isSuspicious := true,
        suspiciousReason :=
          some (.highRenderVelocity (calculateVelocity 100 exProfile)) } :=
  (C8_suspicious_detection 100 exProfile).2.2.1 (by with_unfolding_all decide)

/-- C9: delta reset. A live profile is included in an emission exactly
when its render delta since the last emission is at least 1
(`MIN_DELTA_TO_EMIT`) or it is suspicious; immediately after an emission
that includes it, the stored profile has a since-last-emit cause
histogram summing to 0, an empty buffered prop-change list, and
last-emitted count, cost and time equal to the totals at emission, while
an excluded profile is left untouched. -/
theorem C9_delta_reset (now : Nat) (st : InterceptorState) :
    (∀ (cid : String) (p : ComponentProfile), (cid, p) ∈ st.profiles →
      (emitCondition p = true →
        ((cid, resetAfterEmit now p) ∈ (emitSnapshot now st).2.profiles ∧
         mkProfileSnapshot now p ∈ (emitSnapshot now st).1 ∧
         (resetAfterEmit now p).causeDeltaBreakdown.total = 0 ∧
         (resetAfterEmit now p).propChangeDelta = [] ∧
         (resetAfterEmit now p).lastEmittedRenderCount = p.totalRenders ∧
         (resetAfterEmit now p).lastEmittedRenderCost = p.totalRenderCost ∧
         (resetAfterEmit now p).lastEmitTime = now)) ∧
      (emitCondition p = false →
        (cid, p) ∈ (emitSnapshot now st).2.profiles)) ∧
    (∀ snap ∈ (emitSnapshot now st).1,
      snap.renderPhase ≠ RenderPhase.unmount →
      ∃ cid p, (cid, p) ∈ st.profiles ∧ emitCondition p = true ∧
        snap = mkProfileSnapshot now p) ∧
    (∀ q : ComponentProfile,
      emitCondition q =
        ((decide (1 ≤ (q.totalRenders : Int) - (q.lastEmittedRenderCount : Int))) ||
          q.isSuspicious)) := by
  refine ⟨?_, ?_, ?_⟩
  · intro cid p hmem
    constructor
    · intro hcond
      have h1 := emitLoop_mem_of_cond now st.profiles cid p hmem hcond
      exact ⟨h1.1, List.mem_append_left _ h1.2, rfl, rfl, rfl, rfl, rfl⟩
    · intro hcond
      exact emitLoop_mem_of_not_cond now st.profiles cid p hmem hcond
  · intro snap hmem hphase
    simp only [emitSnapshot] at hmem
    rcases List.mem_append.mp hmem with h1 | h1
    · exact emitLoop_snaps_src now st.profiles snap h1
    · rcases List.mem_map.mp h1 with ⟨p, _, hs⟩
      exact absurd (hs ▸ rfl : snap.renderPhase = RenderPhase.unmount) hphase
  · intro q
    cases hs : q.isSuspicious
    · simp only [emitCondition, RENDER_THRESHOLDS, hs, Bool.not_false,
        Bool.and_true, Bool.or_false]
      rw [← decide_not]
      refine decide_eq_decide.mpr ?_
      omega
    · simp [emitCondition, hs]

/-- C9 witness: the concrete profile (delta 1, suspicious) is included in
the concrete emission; afterwards its delta histogram sums to 0, its
buffered prop changes are empty and its last-emitted counters equal the
emission-time totals. -/
theorem C9_delta_reset_witness :
    ("c_1", resetAfterEmit 200 exProfile) ∈
        (emitSnapshot 200 (applyOps initialState exOps)).2.profiles ∧
    mkProfileSnapshot 200 exProfile ∈
        (emitSnapshot 200 (applyOps initialState exOps)).1 ∧
    (resetAfterEmit 200 exProfile).causeDeltaBreakdown.total = 0 ∧
    (resetAfterEmit 200 exProfile).propChangeDelta = [] ∧
    (resetAfterEmit 200 exProfile).lastEmittedRenderCount =
      exProfile.totalRenders ∧
    (resetAfterEmit 200 exProfile).lastEmittedRenderCost =
      exProfile.totalRenderCost ∧
    (resetAfterEmit 200 exProfile).lastEmitTime = 200 :=
  ((C9_delta_reset 200 (applyOps initialState exOps)).1 "c_1" exProfile
    (by with_unfolding_all decide)).1 (by with_unfolding_all decide)

/-! ### Shallow-equality characterization -/

theorem jsEq_refl (s : Store) (a : Nat) : jsEq s a a = true := by
  simp [jsEq]

theorem jsEqV_refl (s : Store) (o : Option Nat) : jsEqV s o o = true := by
  rcases o with _ | r
  · rfl
  · simp [jsEqV, jsEq]

theorem zip_self_all_jsEq (s : Store) :
    ∀ xs : List Nat, (xs.zip xs).all (fun pr => jsEq s pr.1 pr.2) = true := by
  intro xs
  induction xs with
  | nil => rfl
  | cons x rest ih => simp [List.zip_cons_cons, jsEq_refl, ih]

theorem isShallowEqual_prim (s : Store) (ra rb : Nat) (p q : Prim)
    (h1 : deref s ra = .prim p) (h2 : deref s rb = .prim q) :
    isShallowEqual s (some ra) (some rb) = decide (p = q) := by
  by_cases hab : ra = rb
  · subst hab
    rw [h1] at h2
    rcases JSObj.prim.injEq .. ▸ h2 with rfl
    simp [isShallowEqual, jsEqV, jsEq]
  · by_cases hpq : p = q
    · subst hpq
      have hj : jsEqV s (some ra) (some rb) = true := by
        simp [jsEqV, jsEq, hab, h1, h2]
      simp [isShallowEqual, hj]
    · rw [decide_eq_false hpq]
      have hj : jsEqV s (some ra) (some rb) = false := by
        simp [jsEqV, jsEq, hab, h1, h2, hpq]
      rcases p <;> rcases q <;>
        simp_all [isShallowEqual, typeofV, typeofObj, isNullV, jsEqV, jsEq]

theorem isShallowEqual_func (s : Store) (ra rb : Nat)
    (h1 : deref s ra = .func) (h2 : deref s rb = .func) :
    isShallowEqual s (some ra) (some rb) = true := by
  by_cases hab : ra = rb
  · simp [isShallowEqual, jsEqV, jsEq, hab]
  · have hj : jsEqV s (some ra) (some rb) = false := by
      simp [jsEqV, jsEq, hab, h1, h2]
    simp [isShallowEqual, hj, typeofV, typeofObj, isNullV, h1, h2]

theorem isShallowEqual_arr (s : Store) (ra rb : Nat) (xs ys : List Nat)
    (h1 : deref s ra = .arr xs) (h2 : deref s rb = .arr ys) :
    isShallowEqual s (some ra) (some rb) =
      (decide (xs.length = ys.length) &&
        (xs.zip ys).all (fun pr => jsEq s pr.1 pr.2)) := by
  by_cases hab : ra = rb
  · subst hab
    rw [h1] at h2
    rcases JSObj.arr.injEq .. ▸ h2 with rfl
    have hj : jsEqV s (some ra) (some ra) = true := jsEqV_refl s (some ra)
    simp [isShallowEqual, hj, zip_self_all_jsEq]
  · have hj : jsEqV s (some ra) (some rb) = false := by
      simp [jsEqV, jsEq, hab, h1, h2]
    simp [isShallowEqual, hj, typeofV, typeofObj, isNullV, h1, h2]

theorem isShallowEqual_obj (s : Store) (ra rb : Nat)
    (fa fb : List (String × Nat))
    (h1 : deref s ra = .obj fa) (h2 : deref s rb = .obj fb) :
    isShallowEqual s (some ra) (some rb) =
      (decide ((keysOf (.obj fa)).length = (keysOf (.obj fb)).length) &&
        (keysOf (.obj fa)).all (fun k =>
          jsEqV s (getProp (.obj fa) k) (getProp (.obj fb) k))) := by
  by_cases hab : ra = rb
  · subst hab
    rw [h1] at h2
    rcases JSObj.obj.injEq .. ▸ h2 with rfl
    have hj : jsEqV s (some ra) (some ra) = true := jsEqV_refl s (some ra)
    have hall : (keysOf (.obj fa)).all (fun k =>
        jsEqV s (getProp (.obj fa) k) (getProp (.obj fa) k)) = true :=
      List.all_eq_true.mpr (fun k _ => jsEqV_refl s (getProp (.obj fa) k))
    simp [isShallowEqual, hj, hall]
  · have hj : jsEqV s (some ra) (some rb) = false := by
      simp [jsEqV, jsEq, hab, h1, h2]
    simp [isShallowEqual, hj, typeofV, typeofObj, isNullV, h1, h2]

/-! ### Diff-loop lemmas -/

theorem insertionDedup_mem :
    ∀ (l : List String) (seen : List String) (k : String),
      k ∈ insertionDedup seen l ↔ (k ∈ l ∧ k ∉ seen) := by
  intro l
  induction l with
  | nil => intro seen k; simp [insertionDedup]
  | cons k0 rest ih =>
    intro seen k
    by_cases h0 : seen.contains k0
    · rw [insertionDedup, if_pos h0, ih]
      have hk0 : k0 ∈ seen := by simpa using h0
      constructor
      · rintro ⟨h1, h2⟩
        exact ⟨List.mem_cons_of_mem _ h1, h2⟩
      · rintro ⟨h1, h2⟩
        rcases List.mem_cons.mp h1 with rfl | h1
        · exact absurd hk0 h2
        · exact ⟨h1, h2⟩
    · rw [insertionDedup, if_neg h0, List.mem_cons, ih]
      have hk0 : k0 ∉ seen := by simpa using h0
      constructor
      · rintro (rfl | ⟨h1, h2⟩)
        · exact ⟨List.mem_cons_self _ _, hk0⟩
        · refine ⟨List.mem_cons_of_mem _ h1, ?_⟩
          intro hc
          exact h2 (List.mem_cons_of_mem _ hc)
      · rintro ⟨h1, h2⟩
        rcases List.mem_cons.mp h1 with rfl | h1
        · exact Or.inl rfl
        · by_cases hkk : k = k0
          · exact Or.inl hkk
          · refine Or.inr ⟨h1, ?_⟩
            intro hc
            rcases List.mem_cons.mp hc with h3 | h3
            · exact hkk h3
            · exact h2 h3

theorem diffPropsLoop_acc_mono (s : Store) (po no : JSObj) :
    ∀ (keys : List String) (acc : List PropChangeDetail)
      (d : PropChangeDetail), d ∈ acc → d ∈ diffPropsLoop s po no keys acc := by
  intro keys
  induction keys with
  | nil => intro acc d h; exact h
  | cons k rest ih =>
    intro acc d h
    by_cases hsk : skipKeys.contains k
    · rw [diffPropsLoop, if_pos hsk]
      exact ih acc d h
    · rw [diffPropsLoop, if_neg hsk]
      by_cases heq : jsEqV s (getProp po k) (getProp no k) = true
      · rw [if_pos heq]
        exact ih acc d h
      · rw [if_neg heq]
        by_cases hlen : 10 ≤ (acc ++
            [({ key := k, referenceOnly := isShallowEqual s (getProp po k) (getProp no k) } : PropChangeDetail)]).length
        · rw [if_pos hlen]
          exact List.mem_append_left _ h
        · rw [if_neg hlen]
          exact ih _ d (List.mem_append_left _ h)

theorem diffPropsLoop_sound (s : Store) (po no : JSObj) :
    ∀ (keys : List String) (acc : List PropChangeDetail)
      (d : PropChangeDetail), d ∈ diffPropsLoop s po no keys acc →
      d ∈ acc ∨
        (d.key ∈ keys ∧ skipKeys.contains d.key = false ∧
          jsEqV s (getProp po d.key) (getProp no d.key) = false ∧
          d.referenceOnly =
            isShallowEqual s (getProp po d.key) (getProp no d.key)) := by
  intro keys
  induction keys with
  | nil => intro acc d h; exact Or.inl h
  | cons k rest ih =>
    intro acc d h
    by_cases hsk : skipKeys.contains k
    · rw [diffPropsLoop, if_pos hsk] at h
      rcases ih acc d h with h1 | ⟨h1, h2, h3, h4⟩
      · exact Or.inl h1
      · exact Or.inr ⟨List.mem_cons_of_mem _ h1, h2, h3, h4⟩
    · rw [diffPropsLoop, if_neg hsk] at h
      by_cases heq : jsEqV s (getProp po k) (getProp no k) = true
      · rw [if_pos heq] at h
        rcases ih acc d h with h1 | ⟨h1, h2, h3, h4⟩
        · exact Or.inl h1
        · exact Or.inr ⟨List.mem_cons_of_mem _ h1, h2, h3, h4⟩
      · rw [if_neg heq] at h
        have hkey : ∀ d2, d2 ∈ acc ++
            [({ key := k, referenceOnly := isShallowEqual s (getProp po k) (getProp no k) } : PropChangeDetail)] →
            d2 ∈ acc ∨
              (d2.key ∈ k :: rest ∧ skipKeys.contains d2.key = false ∧
                jsEqV s (getProp po d2.key) (getProp no d2.key) = false ∧
                d2.referenceOnly =
                  isShallowEqual s (getProp po d2.key) (getProp no d2.key)) := by
          intro d2 hd2
          rcases List.mem_append.mp hd2 with h1 | h1
          · exact Or.inl h1
          · rcases List.mem_singleton.mp h1 with rfl
            refine Or.inr ⟨List.mem_cons_self _ _, ?_, ?_, rfl⟩
            · simpa using hsk
            · simpa using heq
        by_cases hlen : 10 ≤ (acc ++
            [({ key := k, referenceOnly := isShallowEqual s (getProp po k) (getProp no k) } : PropChangeDetail)]).length
        · rw [if_pos hlen] at h
          exact hkey d h
        · rw [if_neg hlen] at h
          rcases ih _ d h with h1 | ⟨h1, h2, h3, h4⟩
          · exact hkey d h1
          · exact Or.inr ⟨List.mem_cons_of_mem _ h1, h2, h3, h4⟩

theorem diffPropsLoop_length (s : Store) (po no : JSObj) :
    ∀ (keys : List String) (acc : List PropChangeDetail),
      acc.length ≤ 9 → (diffPropsLoop s po no keys acc).length ≤ 10 := by
  intro keys
  induction keys with
  | nil => intro acc h; exact Nat.le_trans h (by omega)
  | cons k rest ih =>
    intro acc h
    by_cases hsk : skipKeys.contains k
    · rw [diffPropsLoop, if_pos hsk]
      exact ih acc h
    · rw [diffPropsLoop, if_neg hsk]
      by_cases heq : jsEqV s (getProp po k) (getProp no k) = true
      · rw [if_pos heq]
        exact ih acc h
      · rw [if_neg heq]
        by_cases hlen : 10 ≤ (acc ++
            [({ key := k, referenceOnly := isShallowEqual s (getProp po k) (getProp no k) } : PropChangeDetail)]).length
        · rw [if_pos hlen]
          simp only [List.length_append, List.length_singleton]
          omega
        · rw [if_neg hlen]
          refine ih _ ?_
          simp only [List.length_append, List.length_singleton] at hlen ⊢
          omega

theorem diffPropsLoop_complete (s : Store) (po no : JSObj) :
    ∀ (keys : List String) (acc : List PropChangeDetail),
      (diffPropsLoop s po no keys acc).length < 10 →
      ∀ k ∈ keys, skipKeys.contains k = false →
        jsEqV s (getProp po k) (getProp no k) = false →
        ∃ d ∈ diffPropsLoop s po no keys acc, d.key = k := by
  intro keys
  induction keys with
  | nil => intro acc _ k h; simp at h
  | cons k0 rest ih =>
    intro acc hlen10 k hk hks hkeq
    by_cases hsk : skipKeys.contains k0
    · rw [diffPropsLoop, if_pos hsk] at hlen10 ⊢
      rcases List.mem_cons.mp hk with rfl | hk2
      · rw [hks] at hsk
        simp at hsk
      · exact ih acc hlen10 k hk2 hks hkeq
    · rw [diffPropsLoop, if_neg hsk] at hlen10 ⊢
      by_cases heq : jsEqV s (getProp po k0) (getProp no k0) = true
      · rw [if_pos heq] at hlen10 ⊢
        rcases List.mem_cons.mp hk with rfl | hk2
        · rw [hkeq] at heq
          simp at heq
        · exact ih acc hlen10 k hk2 hks hkeq
      · rw [if_neg heq] at hlen10 ⊢
        by_cases hlen : 10 ≤ (acc ++
            [({ key := k0, referenceOnly := isShallowEqual s (getProp po k0) (getProp no k0) } : PropChangeDetail)]).length
        · rw [if_pos hlen] at hlen10
          omega
        · rw [if_neg hlen] at hlen10 ⊢
          rcases List.mem_cons.mp hk with rfl | hk2
          · refine ⟨{ key := k, referenceOnly := isShallowEqual s (getProp po k) (getProp no k) }, ?_, rfl⟩
            exact diffPropsLoop_acc_mono s po no rest _ _
              (List.mem_append_right _ (List.mem_singleton.mpr rfl))
          · exact ih _ hlen10 k hk2 hks hkeq

/-- C7 counterexample: the claim's object clause (referenceOnly = true
exactly when one-level structural equality holds, with plain objects
requiring EQUAL KEY SETS and reference-equal values, and a genuinely
different value yielding referenceOnly = false) fails on the code. With
concrete property sets where the key p is replaced by a distinct plain
object — old value the record with key set containing only x (holding
undefined), new value the record with key set containing only y (holding
5) — the differ reports p with referenceOnly = true (the source compares
key counts and reads only the first record's keys, so both sides read
undefined at x), while the claim's structural equality is false: the key
sets differ and the new value is genuinely different. -/
theorem C7_key_set_counterexample :
    deref cxStore 2 = JSObj.obj [("x", 4)] ∧
    deref cxStore 3 = JSObj.obj [("y", 5)] ∧
    deref cxStore 4 = JSObj.prim .undef ∧
    deref cxStore 5 = JSObj.prim (.num 5) ∧
    getProp (deref cxStore 0) "p" = some 2 ∧
    getProp (deref cxStore 1) "p" = some 3 ∧
    diffProps cxStore 0 1 = [{ key := "p", referenceOnly := true }] ∧
    isShallowEqual cxStore (some 2) (some 3) = true ∧
    specShallowStructEq cxStore (some 2) (some 3) = false := by decide

/-- C7 as amended: property diff classification. An absent (falsy)
property set on either side yields an empty diff; the diff iterates the
union of keys minus the reserved children/key/ref, reports only keys
whose values differ by reference, is capped at 10 entries (and below the
cap reports every qualifying union key); a reported key is marked
referenceOnly exactly by the source's one-level-deep check: primitives
by value, arrays by equal length and reference-equal elements, two
function values always reference-only, and plain objects by equal key
COUNT with reference-equal values over the first record's keys (a key
missing from the second record reads as undefined, so equal key sets are
not required). -/
theorem C7_prop_diff_classification (s : Store) (prevProps nextProps : Nat) :
    ((truthy (deref s prevProps) = false ∨ truthy (deref s nextProps) = false) →
      diffProps s prevProps nextProps = []) ∧
    (diffProps s prevProps nextProps).length ≤ 10 ∧
    (∀ d ∈ diffProps s prevProps nextProps,
      d.key ∈ keysOf (deref s prevProps) ++ keysOf (deref s nextProps) ∧
      d.key ∉ skipKeys ∧
      jsEqV s (getProp (deref s prevProps) d.key)
        (getProp (deref s nextProps) d.key) = false ∧
      d.referenceOnly = isShallowEqual s (getProp (deref s prevProps) d.key)
        (getProp (deref s nextProps) d.key)) ∧
    ((diffProps s prevProps nextProps).length < 10 →
      truthy (deref s prevProps) = true → truthy (deref s nextProps) = true →
      ∀ k ∈ keysOf (deref s prevProps) ++ keysOf (deref s nextProps),
        k ∉ skipKeys →
        jsEqV s (getProp (deref s prevProps) k)
          (getProp (deref s nextProps) k) = false →
        ∃ d ∈ diffProps s prevProps nextProps, d.key = k) ∧
    (∀ (ra rb : Nat) (p q : Prim),
      deref s ra = .prim p → deref s rb = .prim q →
      isShallowEqual s (some ra) (some rb) = decide (p = q)) ∧
    (∀ ra rb : Nat, deref s ra = .func → deref s rb = .func →
      isShallowEqual s (some ra) (some rb) = true) ∧
    (∀ (ra rb : Nat) (xs ys : List Nat),
      deref s ra = .arr xs → deref s rb = .arr ys →
      isShallowEqual s (some ra) (some rb) =
        (decide (xs.length = ys.length) &&
          (xs.zip ys).all (fun pr => jsEq s pr.1 pr.2))) ∧
    (∀ (ra rb : Nat) (fa fb : List (String × Nat)),
      deref s ra = .obj fa → deref s rb = .obj fb →
      isShallowEqual s (some ra) (some rb) =
        (decide ((keysOf (.obj fa)).length = (keysOf (.obj fb)).length) &&
          (keysOf (.obj fa)).all (fun k =>
            jsEqV s (getProp (.obj fa) k) (getProp (.obj fb) k)))) := by
  refine ⟨?_, ?_, ?_, ?_,
    isShallowEqual_prim s, isShallowEqual_func s,
    isShallowEqual_arr s, isShallowEqual_obj s⟩
  · intro h
    unfold diffProps
    rcases h with h | h <;> simp [h]
  · unfold diffProps
    split
    · simp
    · exact diffPropsLoop_length s _ _ _ [] (by simp)
  · intro d hd
    unfold diffProps at hd
    split at hd
    · simp at hd
    · rcases diffPropsLoop_sound s _ _ _ [] d hd with h1 | ⟨h1, h2, h3, h4⟩
      · simp at h1
      · refine ⟨((insertionDedup_mem _ [] d.key).mp h1).1, ?_, h3, h4⟩
        simpa using h2
  · intro hlen h1 h2 k hk hknot hkeq
    have hg : diffProps s prevProps nextProps =
        diffPropsLoop s (deref s prevProps) (deref s nextProps)
          (insertionDedup []
            (keysOf (deref s prevProps) ++ keysOf (deref s nextProps))) [] := by
      unfold diffProps
      rw [if_neg]
      simp [h1, h2]
    rw [hg] at hlen ⊢
    refine diffPropsLoop_complete s _ _ _ [] hlen k ?_ ?_ hkeq
    · exact (insertionDedup_mem _ [] k).mpr ⟨hk, by simp⟩
    · simpa using hknot

/-- C7 witness: diffing the two concrete property records reports the
key x as changed with referenceOnly false (the values are genuinely
different primitives), the key is in the union and not reserved. -/
theorem C7_prop_diff_classification_witness :
    (⟨"x", false⟩ : PropChangeDetail) ∈ diffProps exStore 0 1 ∧
    ("x" ∈ keysOf (deref exStore 0) ++ keysOf (deref exStore 1) ∧
     "x" ∉ skipKeys ∧
     jsEqV exStore (getProp (deref exStore 0) "x")
       (getProp (deref exStore 1) "x") = false ∧
     (false : Bool) = isShallowEqual exStore (getProp (deref exStore 0) "x")
       (getProp (deref exStore 1) "x")) :=
  ⟨by decide,
    (C7_prop_diff_classification exStore 0 1).2.2.1 ⟨"x", false⟩ (by decide)⟩

end Limelight
